import Mathlib

/-!
# Multi-select and batch deletion (`pkg/gui/multi_select.go`)

A shallow embedding of the multi-select handlers of the `gui` package and of
the batch deletion they drive.

Modelling conventions.

* A Go `map[string]bool` is a finite map from `String` to `Bool`
  (`GoMap`); two maps with the same entries are equal, as in Go, where a
  map has no observable insertion order.
* A Go `error` value is an `Option String`: `none` is `nil`, `some msg` is an
  error whose `Error()` text is `msg`.
* The panels (`SideListPanel`), the removal methods of the `commands`
  package, `createErrorPanel`, `createConfirmationPanel` and the translation
  set are not part of `multi_select.go`.  They are parameters of the model,
  collected in `Env`: each one is an arbitrary function on an abstract user
  interface state `U` (panels and views) or an abstract Docker state `D`
  (removal calls).  The removal methods have a `commands` object as receiver
  and so act on `D` only.  The panel methods, `createErrorPanel` and
  `createConfirmationPanel` act on `U` only: the selection maps are written
  by the functions of `multi_select.go` and by nothing else.
* `range` over a Go map visits every key exactly once in an unspecified
  order.  The order chosen for each of the four loops of the batch deletion
  is a parameter (`RangeOrder`), constrained by `RangeOrder.Valid`.
* The four selection maps are allocated: the program never runs with a
  `nil` map in `gui.State.MultiSelect`.
* Every call of an external operation that has an effect is appended to a
  log (`Gui.log`) together with the error it returned.  The log is not read
  by the program; it is there to state which calls were made, and in which
  order.
-/

namespace Lazydocker

/-! ## Go maps -/

/-- A Go `map[string]bool`. -/
abbrev GoMap := Finmap (fun _ : String => Bool)

/-- The Go expression `make(map[string]bool)`. -/
def GoMap.make : GoMap := ∅

/-- The Go expression `len(m)`. -/
def GoMap.len (m : GoMap) : Nat := m.keys.card

/-- The Go expression `m[k]`: the stored value, or `false` when `k` is not a key. -/
def GoMap.get (m : GoMap) (k : String) : Bool := (m.lookup k).getD false

/-- The Go statement `m[k] = v`. -/
def GoMap.set (m : GoMap) (k : String) (v : Bool) : GoMap := Finmap.insert k v m

/-- The Go statement `delete(m, k)`. -/
def GoMap.delete (m : GoMap) (k : String) : GoMap := Finmap.erase k m

/-- The list `ks` is a possible order of `for k := range m`: every key of `m`
exactly once. -/
def GoMap.IsRange (m : GoMap) (ks : List String) : Prop :=
  ks.Nodup ∧ ks.toFinset = m.keys

instance (m : GoMap) (ks : List String) : Decidable (GoMap.IsRange m ks) := by
  unfold GoMap.IsRange; infer_instance

/-- No key of the map is stored with the value `false`. -/
def GoMap.AllTrue (m : GoMap) : Prop := ∀ k ∈ m.keys, m.lookup k = some true

instance (m : GoMap) : Decidable (GoMap.AllTrue m) := by
  unfold GoMap.AllTrue; infer_instance

/-! ## Data model -/

/-- The fields of `commands.Container` read by `multi_select.go`. -/
structure Container where
  ID : String
  Name : String
deriving DecidableEq, Repr

/-- The fields of `commands.Image` read by `multi_select.go`. -/
structure Image where
  ID : String
  Name : String
deriving DecidableEq, Repr

/-- The field of `commands.Volume` read by `multi_select.go`. -/
structure Volume where
  Name : String
deriving DecidableEq, Repr

/-- The field of `commands.Network` read by `multi_select.go`. -/
structure Network where
  Name : String
deriving DecidableEq, Repr

/-- Docker's `container.RemoveOptions`; a field left out of a Go composite
literal is `false`. -/
structure ContainerRemoveOptions where
  RemoveVolumes : Bool := false
  RemoveLinks : Bool := false
  Force : Bool := false
deriving DecidableEq, Repr

/-- Docker's `image.RemoveOptions`. -/
structure ImageRemoveOptions where
  Force : Bool := false
  PruneChildren : Bool := false
deriving DecidableEq, Repr

/-- The four panels that take part in multi-selection. -/
inductive Category where
  | container
  | image
  | volume
  | network
deriving DecidableEq, Repr, Fintype

/-- The value `gui.State.MultiSelect`. -/
structure MultiSelectState where
  Containers : GoMap
  Images : GoMap
  Volumes : GoMap
  Networks : GoMap
deriving DecidableEq

/-- The selection map of one category. -/
def MultiSelectState.sel (s : MultiSelectState) : Category → GoMap
  | Category.container => s.Containers
  | Category.image => s.Images
  | Category.volume => s.Volumes
  | Category.network => s.Networks

/-- An external call with an effect. -/
inductive Call where
  | ContainerRemove (ctr : Container) (opts : ContainerRemoveOptions)
  | ImageRemove (img : Image) (opts : ImageRemoveOptions)
  | VolumeRemove (vol : Volume) (force : Bool)
  | NetworkRemove (net : Network)
  | SelectNextLine (panel : Category)
  | RerenderList (panel : Category)
  | createErrorPanel (message : String)
  | createConfirmationPanel (title : String) (message : String)
deriving DecidableEq, Repr

/-- A logged call with the error it returned (`none` for `nil` and for calls
without a result). -/
structure Event where
  call : Call
  err : Option String
deriving DecidableEq, Repr

/-- The interface of one `SideListPanel` used by `multi_select.go`, on the
abstract user interface state `U`. -/
structure SideListPanel (U α : Type) where
  /-- The method `List.GetItems()`: the items shown, after filtering. -/
  GetItems : U → List α
  /-- The method `List.GetAllItems()`: all items, filtered out or not. -/
  GetAllItems : U → List α
  /-- The method `GetSelectedItem()`: the focused item, or an error. -/
  GetSelectedItem : U → Except String α
  /-- The method `SelectNextLine()`. -/
  SelectNextLine : U → U
  /-- The method `RerenderList()`. -/
  RerenderList : U → Option String × U

/-- The strings of `gui.Tr` read by `multi_select.go`. -/
structure TranslationSet where
  Confirm : String
  ConfirmDeleteSelected : String
  RemovingStatus : String

/-- Everything `multi_select.go` calls and does not define. -/
structure Env (U D : Type) where
  Containers : SideListPanel U Container
  Images : SideListPanel U Image
  Volumes : SideListPanel U Volume
  Networks : SideListPanel U Network
  /-- The method `(*commands.Container).Remove`. -/
  ContainerRemove : Container → ContainerRemoveOptions → D → Option String × D
  /-- The method `(*commands.Image).Remove`. -/
  ImageRemove : Image → ImageRemoveOptions → D → Option String × D
  /-- The method `(*commands.Volume).Remove`. -/
  VolumeRemove : Volume → Bool → D → Option String × D
  /-- The method `(*commands.Network).Remove`. -/
  NetworkRemove : Network → D → Option String × D
  /-- The method `gui.createErrorPanel`. -/
  createErrorPanel : String → U → Option String × U
  /-- The method `gui.createConfirmationPanel`, which shows the prompt and
  keeps the accept closure for later. -/
  createConfirmationPanel : String → String → U → Option String × U
  Tr : TranslationSet

/-- The state of the program: the selection, the user interface, Docker, and
the log of external calls. -/
structure Gui (U D : Type) where
  MultiSelect : MultiSelectState
  ui : U
  docker : D
  log : List Event

/-- The order in which each of the four `range` loops of the batch deletion
visits the keys of its map. -/
structure RangeOrder where
  Containers : List String
  Images : List String
  Volumes : List String
  Networks : List String

/-- Each of the four orders visits every key of its map exactly once. -/
def RangeOrder.Valid (o : RangeOrder) (s : MultiSelectState) : Prop :=
  s.Containers.IsRange o.Containers ∧ s.Images.IsRange o.Images ∧
    s.Volumes.IsRange o.Volumes ∧ s.Networks.IsRange o.Networks

instance (o : RangeOrder) (s : MultiSelectState) : Decidable (o.Valid s) := by
  unfold RangeOrder.Valid; infer_instance

/-- Every selection map stores only the value `true`. -/
def MultiSelectState.AllTrue (s : MultiSelectState) : Prop :=
  s.Containers.AllTrue ∧ s.Images.AllTrue ∧ s.Volumes.AllTrue ∧ s.Networks.AllTrue

instance (s : MultiSelectState) : Decidable s.AllTrue := by
  unfold MultiSelectState.AllTrue; infer_instance

section Program

variable {U D : Type}

/-! ## Queries -/

/-- `hasAnySelections`, lines 14-19. -/
def hasAnySelections (g : Gui U D) : Bool :=
  decide (g.MultiSelect.Containers.len > 0) ||
    decide (g.MultiSelect.Images.len > 0) ||
    decide (g.MultiSelect.Volumes.len > 0) ||
    decide (g.MultiSelect.Networks.len > 0)

/-- `clearAllSelections`, lines 22-27. -/
def clearAllSelections (g : Gui U D) : Gui U D :=
  { g with MultiSelect :=
      { Containers := GoMap.make, Images := GoMap.make,
        Volumes := GoMap.make, Networks := GoMap.make } }

/-- `getSelectionCount`, lines 47-52. -/
def getSelectionCount (g : Gui U D) : Nat :=
  g.MultiSelect.Containers.len + g.MultiSelect.Images.len +
    g.MultiSelect.Volumes.len + g.MultiSelect.Networks.len

/-! ## Panel calls -/

/-- A call of `RerenderList()` on the panel `p` of category `c`. -/
def rerenderList {α : Type} (p : SideListPanel U α) (c : Category) (g : Gui U D) :
    Option String × Gui U D :=
  let r := p.RerenderList g.ui
  (r.1, { g with ui := r.2, log := g.log ++ [⟨Call.RerenderList c, r.1⟩] })

/-- A call of `SelectNextLine()` on the panel `p` of category `c`. -/
def selectNextLine {α : Type} (p : SideListPanel U α) (c : Category) (g : Gui U D) :
    Gui U D :=
  { g with ui := p.SelectNextLine g.ui, log := g.log ++ [⟨Call.SelectNextLine c, none⟩] }

/-- `rerenderAllPanels`, lines 30-44. -/
def rerenderAllPanels (env : Env U D) (g : Gui U D) : Option String × Gui U D :=
  match rerenderList env.Containers Category.container g with
  | (some err, g1) => (some err, g1)
  | (none, g1) =>
    match rerenderList env.Images Category.image g1 with
    | (some err, g2) => (some err, g2)
    | (none, g2) =>
      match rerenderList env.Volumes Category.volume g2 with
      | (some err, g3) => (some err, g3)
      | (none, g3) =>
        match rerenderList env.Networks Category.network g3 with
        | (some err, g4) => (some err, g4)
        | (none, g4) => (none, g4)

/-! ## Select all -/

/-- `handleSelectAllContainers`, lines 56-61. -/
def handleSelectAllContainers (env : Env U D) (g : Gui U D) : Option String × Gui U D :=
  let m := (env.Containers.GetItems g.ui).foldl
    (fun m ctr => GoMap.set m ctr.ID true) g.MultiSelect.Containers
  rerenderList env.Containers Category.container
    { g with MultiSelect := { g.MultiSelect with Containers := m } }

/-- `handleSelectAllImages`, lines 63-68. -/
def handleSelectAllImages (env : Env U D) (g : Gui U D) : Option String × Gui U D :=
  let m := (env.Images.GetItems g.ui).foldl
    (fun m img => GoMap.set m img.ID true) g.MultiSelect.Images
  rerenderList env.Images Category.image
    { g with MultiSelect := { g.MultiSelect with Images := m } }

/-- `handleSelectAllVolumes`, lines 70-75. -/
def handleSelectAllVolumes (env : Env U D) (g : Gui U D) : Option String × Gui U D :=
  let m := (env.Volumes.GetItems g.ui).foldl
    (fun m vol => GoMap.set m vol.Name true) g.MultiSelect.Volumes
  rerenderList env.Volumes Category.volume
    { g with MultiSelect := { g.MultiSelect with Volumes := m } }

/-- `handleSelectAllNetworks`, lines 77-82. -/
def handleSelectAllNetworks (env : Env U D) (g : Gui U D) : Option String × Gui U D :=
  let m := (env.Networks.GetItems g.ui).foldl
    (fun m net => GoMap.set m net.Name true) g.MultiSelect.Networks
  rerenderList env.Networks Category.network
    { g with MultiSelect := { g.MultiSelect with Networks := m } }

/-! ## Deselect all -/

/-- `handleDeselectAllContainers`, lines 86-89. -/
def handleDeselectAllContainers (env : Env U D) (g : Gui U D) : Option String × Gui U D :=
  rerenderList env.Containers Category.container
    { g with MultiSelect := { g.MultiSelect with Containers := GoMap.make } }

/-- `handleDeselectAllImages`, lines 91-94. -/
def handleDeselectAllImages (env : Env U D) (g : Gui U D) : Option String × Gui U D :=
  rerenderList env.Images Category.image
    { g with MultiSelect := { g.MultiSelect with Images := GoMap.make } }

/-- `handleDeselectAllVolumes`, lines 96-99. -/
def handleDeselectAllVolumes (env : Env U D) (g : Gui U D) : Option String × Gui U D :=
  rerenderList env.Volumes Category.volume
    { g with MultiSelect := { g.MultiSelect with Volumes := GoMap.make } }

/-- `handleDeselectAllNetworks`, lines 101-104. -/
def handleDeselectAllNetworks (env : Env U D) (g : Gui U D) : Option String × Gui U D :=
  rerenderList env.Networks Category.network
    { g with MultiSelect := { g.MultiSelect with Networks := GoMap.make } }

/-! ## Toggle -/

/-- The `if`/`else` of the four toggle handlers (lines 114-118, 132-136,
149-153, 166-170) on the map `m` and the key `id`. -/
def toggleKey (m : GoMap) (id : String) : GoMap :=
  if m.get id then m.delete id else m.set id true

/-- `handleToggleContainerSelection`, lines 108-124. -/
def handleToggleContainerSelection (env : Env U D) (g : Gui U D) :
    Option String × Gui U D :=
  match env.Containers.GetSelectedItem g.ui with
  | Except.error _ => (none, g)
  | Except.ok ctr =>
    let g1 := { g with MultiSelect :=
      { g.MultiSelect with Containers := toggleKey g.MultiSelect.Containers ctr.ID } }
    let g2 := selectNextLine env.Containers Category.container g1
    rerenderList env.Containers Category.container g2

/-- `handleToggleImageSelection`, lines 126-141. -/
def handleToggleImageSelection (env : Env U D) (g : Gui U D) :
    Option String × Gui U D :=
  match env.Images.GetSelectedItem g.ui with
  | Except.error _ => (none, g)
  | Except.ok img =>
    let g1 := { g with MultiSelect :=
      { g.MultiSelect with Images := toggleKey g.MultiSelect.Images img.ID } }
    let g2 := selectNextLine env.Images Category.image g1
    rerenderList env.Images Category.image g2

/-- `handleToggleVolumeSelection`, lines 143-158. -/
def handleToggleVolumeSelection (env : Env U D) (g : Gui U D) :
    Option String × Gui U D :=
  match env.Volumes.GetSelectedItem g.ui with
  | Except.error _ => (none, g)
  | Except.ok vol =>
    let g1 := { g with MultiSelect :=
      { g.MultiSelect with Volumes := toggleKey g.MultiSelect.Volumes vol.Name } }
    let g2 := selectNextLine env.Volumes Category.volume g1
    rerenderList env.Volumes Category.volume g2

/-- `handleToggleNetworkSelection`, lines 160-175. -/
def handleToggleNetworkSelection (env : Env U D) (g : Gui U D) :
    Option String × Gui U D :=
  match env.Networks.GetSelectedItem g.ui with
  | Except.error _ => (none, g)
  | Except.ok net =>
    let g1 := { g with MultiSelect :=
      { g.MultiSelect with Networks := toggleKey g.MultiSelect.Networks net.Name } }
    let g2 := selectNextLine env.Networks Category.network g1
    rerenderList env.Networks Category.network g2

/-! ## Lookup -/

/-- The loop of `findContainerByID` (lines 277-282) over the items `all`. -/
def findContainerIn : List Container → String → Option Container
  | [], _ => none
  | c :: rest, id => if c.ID = id then some c else findContainerIn rest id

/-- The loop of `findImageByID` (lines 286-291) over the items `all`. -/
def findImageIn : List Image → String → Option Image
  | [], _ => none
  | img :: rest, id => if img.ID = id then some img else findImageIn rest id

/-- The loop of `findVolumeByName` (lines 295-300) over the items `all`. -/
def findVolumeIn : List Volume → String → Option Volume
  | [], _ => none
  | vol :: rest, name => if vol.Name = name then some vol else findVolumeIn rest name

/-- The loop of `findNetworkByName` (lines 304-309) over the items `all`. -/
def findNetworkIn : List Network → String → Option Network
  | [], _ => none
  | net :: rest, name => if net.Name = name then some net else findNetworkIn rest name

/-- `findContainerByID`, lines 276-283; `none` is the `nil` pointer. -/
def findContainerByID (env : Env U D) (g : Gui U D) (id : String) : Option Container :=
  findContainerIn (env.Containers.GetAllItems g.ui) id

/-- `findImageByID`, lines 285-292. -/
def findImageByID (env : Env U D) (g : Gui U D) (id : String) : Option Image :=
  findImageIn (env.Images.GetAllItems g.ui) id

/-- `findVolumeByName`, lines 294-301. -/
def findVolumeByName (env : Env U D) (g : Gui U D) (name : String) : Option Volume :=
  findVolumeIn (env.Volumes.GetAllItems g.ui) name

/-- `findNetworkByName`, lines 303-310. -/
def findNetworkByName (env : Env U D) (g : Gui U D) (name : String) : Option Network :=
  findNetworkIn (env.Networks.GetAllItems g.ui) name

/-! ## Confirmation message -/

/-- `buildDeleteConfirmationMessage`, lines 198-215.  The verb `%d` prints
the count in decimal. -/
def buildDeleteConfirmationMessage (env : Env U D) (g : Gui U D) : String :=
  let parts : List String := []
  let parts :=
    if g.MultiSelect.Containers.len > 0 then
      parts ++ [toString g.MultiSelect.Containers.len ++ " container(s)"]
    else parts
  let parts :=
    if g.MultiSelect.Images.len > 0 then
      parts ++ [toString g.MultiSelect.Images.len ++ " image(s)"]
    else parts
  let parts :=
    if g.MultiSelect.Volumes.len > 0 then
      parts ++ [toString g.MultiSelect.Volumes.len ++ " volume(s)"]
    else parts
  let parts :=
    if g.MultiSelect.Networks.len > 0 then
      parts ++ [toString g.MultiSelect.Networks.len ++ " network(s)"]
    else parts
  env.Tr.ConfirmDeleteSelected ++ "\n\n" ++ String.intercalate ", " parts

/-! ## Batch deletion -/

/-- One iteration of the container loop, lines 223-230, on the program state
and the local variable `errors`. -/
def deleteContainerStep (env : Env U D) (st : Gui U D × List String) (containerID : String) :
    Gui U D × List String :=
  match findContainerByID env st.1 containerID with
  | none => st
  | some ctr =>
    let r := env.ContainerRemove ctr { Force := true } st.1.docker
    let g1 := { st.1 with
      docker := r.2,
      log := st.1.log ++ [⟨Call.ContainerRemove ctr { Force := true }, r.1⟩] }
    match r.1 with
    | some err => (g1, st.2 ++ ["Container " ++ ctr.Name ++ ": " ++ err])
    | none => (g1, st.2)

/-- One iteration of the image loop, lines 233-240. -/
def deleteImageStep (env : Env U D) (st : Gui U D × List String) (imageID : String) :
    Gui U D × List String :=
  match findImageByID env st.1 imageID with
  | none => st
  | some img =>
    let r := env.ImageRemove img { Force := true, PruneChildren := true } st.1.docker
    let g1 := { st.1 with
      docker := r.2,
      log := st.1.log ++
        [⟨Call.ImageRemove img { Force := true, PruneChildren := true }, r.1⟩] }
    match r.1 with
    | some err => (g1, st.2 ++ ["Image " ++ img.Name ++ ": " ++ err])
    | none => (g1, st.2)

/-- One iteration of the volume loop, lines 243-250. -/
def deleteVolumeStep (env : Env U D) (st : Gui U D × List String) (volumeName : String) :
    Gui U D × List String :=
  match findVolumeByName env st.1 volumeName with
  | none => st
  | some vol =>
    let r := env.VolumeRemove vol true st.1.docker
    let g1 := { st.1 with
      docker := r.2,
      log := st.1.log ++ [⟨Call.VolumeRemove vol true, r.1⟩] }
    match r.1 with
    | some err => (g1, st.2 ++ ["Volume " ++ vol.Name ++ ": " ++ err])
    | none => (g1, st.2)

/-- One iteration of the network loop, lines 253-260. -/
def deleteNetworkStep (env : Env U D) (st : Gui U D × List String) (networkName : String) :
    Gui U D × List String :=
  match findNetworkByName env st.1 networkName with
  | none => st
  | some net =>
    let r := env.NetworkRemove net st.1.docker
    let g1 := { st.1 with
      docker := r.2,
      log := st.1.log ++ [⟨Call.NetworkRemove net, r.1⟩] }
    match r.1 with
    | some err => (g1, st.2 ++ ["Network " ++ net.Name ++ ": " ++ err])
    | none => (g1, st.2)

/-- The four loops of `deleteSelectedItems`, lines 220-260: the state and the
value of `errors` when line 262 is reached.  The keys of each map are visited
in the order given by `o`. -/
def removeSelected (env : Env U D) (o : RangeOrder) (g : Gui U D) : Gui U D × List String :=
  let st : Gui U D × List String := (g, [])
  let st := o.Containers.foldl (deleteContainerStep env) st
  let st := o.Images.foldl (deleteImageStep env) st
  let st := o.Volumes.foldl (deleteVolumeStep env) st
  o.Networks.foldl (deleteNetworkStep env) st

/-- A call of `gui.createErrorPanel`. -/
def createErrorPanel (env : Env U D) (message : String) (g : Gui U D) :
    Option String × Gui U D :=
  let r := env.createErrorPanel message g.ui
  (r.1, { g with ui := r.2, log := g.log ++ [⟨Call.createErrorPanel message, r.1⟩] })

/-- The function literal that `deleteSelectedItems` hands to
`WithWaitingStatus`, lines 219-271.  `WithWaitingStatus` is not part of
`multi_select.go`; it is taken to run the function it is given. -/
def deleteSelectedItems (env : Env U D) (o : RangeOrder) (g : Gui U D) :
    Option String × Gui U D :=
  let st := removeSelected env o g
  let g1 := clearAllSelections st.1
  if st.2.length > 0 then
    createErrorPanel env (String.intercalate "\n" st.2) g1
  else
    (none, g1)

/-- `handleDeleteSelected`, lines 178-195.  The accept closure handed to
`createConfirmationPanel` is `deleteSelectedItems`; it is run only when the
user accepts the prompt. -/
def handleDeleteSelected (env : Env U D) (g : Gui U D) : Option String × Gui U D :=
  let totalSelected := getSelectionCount g
  if totalSelected = 0 then
    (none, g)
  else
    let confirmMsg := buildDeleteConfirmationMessage env g
    let r := env.createConfirmationPanel env.Tr.Confirm confirmMsg g.ui
    (r.1, { g with
      ui := r.2,
      log := g.log ++ [⟨Call.createConfirmationPanel env.Tr.Confirm confirmMsg, r.1⟩] })

/-! ## Vocabulary of the statements -/

/-- The line that the batch deletion appends to `errors` for a removal that
returned an error, lines 227, 237, 247 and 257; `none` for every other
event. -/
def failureLine (e : Event) : Option String :=
  match e.call, e.err with
  | Call.ContainerRemove ctr _, some err => some ("Container " ++ ctr.Name ++ ": " ++ err)
  | Call.ImageRemove img _, some err => some ("Image " ++ img.Name ++ ": " ++ err)
  | Call.VolumeRemove vol _, some err => some ("Volume " ++ vol.Name ++ ": " ++ err)
  | Call.NetworkRemove net, some err => some ("Network " ++ net.Name ++ ": " ++ err)
  | _, _ => none

/-- The position of a call in the fixed order of the batch deletion. -/
def Call.rank : Call → Nat
  | Call.ContainerRemove _ _ => 0
  | Call.ImageRemove _ _ => 1
  | Call.VolumeRemove _ _ => 2
  | Call.NetworkRemove _ => 3
  | _ => 4

/-- The identifier under which the item of a removal call is selected. -/
def Call.removedKey : Call → Option (Category × String)
  | Call.ContainerRemove ctr _ => some (Category.container, ctr.ID)
  | Call.ImageRemove img _ => some (Category.image, img.ID)
  | Call.VolumeRemove vol _ => some (Category.volume, vol.Name)
  | Call.NetworkRemove net => some (Category.network, net.Name)
  | _ => none

/-- The lookup of the category `c` resolves the identifier `id` to an item. -/
def resolves (env : Env U D) (g : Gui U D) : Category → String → Bool
  | Category.container, id => (findContainerByID env g id).isSome
  | Category.image, id => (findImageByID env g id).isSome
  | Category.volume, id => (findVolumeByName env g id).isSome
  | Category.network, id => (findNetworkByName env g id).isSome

/-- The toggle handler of the category `c`. -/
def handleToggleSelection (env : Env U D) : Category → Gui U D → Option String × Gui U D
  | Category.container => handleToggleContainerSelection env
  | Category.image => handleToggleImageSelection env
  | Category.volume => handleToggleVolumeSelection env
  | Category.network => handleToggleNetworkSelection env

/-- The select-all handler of the category `c`. -/
def handleSelectAll (env : Env U D) : Category → Gui U D → Option String × Gui U D
  | Category.container => handleSelectAllContainers env
  | Category.image => handleSelectAllImages env
  | Category.volume => handleSelectAllVolumes env
  | Category.network => handleSelectAllNetworks env

/-- The identifier of the focused item of the panel of category `c`: `ID` for
containers and images, `Name` for volumes and networks. -/
def focusedKey (env : Env U D) (u : U) : Category → Except String String
  | Category.container => (env.Containers.GetSelectedItem u).map (fun ctr => ctr.ID)
  | Category.image => (env.Images.GetSelectedItem u).map (fun img => img.ID)
  | Category.volume => (env.Volumes.GetSelectedItem u).map (fun vol => vol.Name)
  | Category.network => (env.Networks.GetSelectedItem u).map (fun net => net.Name)

/-- The identifiers of the items that the panel of category `c` reports as
visible (`List.GetItems()`). -/
def visibleKeys (env : Env U D) (u : U) : Category → List String
  | Category.container => (env.Containers.GetItems u).map (fun ctr => ctr.ID)
  | Category.image => (env.Images.GetItems u).map (fun img => img.ID)
  | Category.volume => (env.Volumes.GetItems u).map (fun vol => vol.Name)
  | Category.network => (env.Networks.GetItems u).map (fun net => net.Name)

end Program

end Lazydocker

/-! ## The batch deletion: events and failure lines -/

namespace Lazydocker

section Batch

variable {U D : Type}

/-- The events that the four loops of the batch deletion append to the log. -/
def removalEvents (env : Env U D) (o : RangeOrder) (g : Gui U D) : List Event :=
  (removeSelected env o g).1.log.drop g.log.length

/-- The removal calls that the batch deletion has to make: for each category
in turn, the items that the identifiers resolve to, in the order in which the
identifiers are visited. -/
def expectedCalls (env : Env U D) (o : RangeOrder) (g : Gui U D) : List Call :=
  (o.Containers.filterMap (findContainerByID env g)).map
      (fun ctr => Call.ContainerRemove ctr { Force := true }) ++
    (o.Images.filterMap (findImageByID env g)).map
      (fun img => Call.ImageRemove img { Force := true, PruneChildren := true }) ++
    (o.Volumes.filterMap (findVolumeByName env g)).map
      (fun vol => Call.VolumeRemove vol true) ++
    (o.Networks.filterMap (findNetworkByName env g)).map
      (fun net => Call.NetworkRemove net)

/-- What a run of loop iterations from `st` to `r` did: it logged events with
the calls `calls`, appended their failure lines to `errors`, and left the user
interface and the selection alone. -/
def LoopSpec (st r : Gui U D × List String) (calls : List Call) : Prop :=
  ∃ evs : List Event,
    r.1.log = st.1.log ++ evs ∧
    r.2 = st.2 ++ evs.filterMap failureLine ∧
    evs.map Event.call = calls ∧
    r.1.ui = st.1.ui ∧
    r.1.MultiSelect = st.1.MultiSelect

/-! ## A small instance

Trivial interface and Docker states, three containers, one image and one
network, and no volume.  Removing the container named `B` fails with
`resource busy`; every other call succeeds.  The container panel shows `A`
and `B` only and keeps its focus on `A`; the volume panel has no focused
item. -/

/-- A panel whose answers do not depend on the state. -/
def fixedPanel {α : Type} (items all : List α) (focus : Except String α) :
    SideListPanel Unit α where
  GetItems := fun _ => items
  GetAllItems := fun _ => all
  GetSelectedItem := fun _ => focus
  SelectNextLine := fun u => u
  RerenderList := fun u => (none, u)

/-- The instance, with `header` as the text of `Tr.ConfirmDeleteSelected`. -/
def demoEnv (header : String) : Env Unit Unit where
  Containers := fixedPanel [⟨"a", "A"⟩, ⟨"b", "B"⟩] [⟨"a", "A"⟩, ⟨"b", "B"⟩, ⟨"c", "C"⟩]
    (Except.ok ⟨"a", "A"⟩)
  Images := fixedPanel [⟨"i", "I"⟩] [⟨"i", "I"⟩] (Except.ok ⟨"i", "I"⟩)
  Volumes := fixedPanel [] [] (Except.error "no items")
  Networks := fixedPanel [⟨"n"⟩] [⟨"n"⟩] (Except.ok ⟨"n"⟩)
  ContainerRemove := fun ctr _ d => (if ctr.Name = "B" then some "resource busy" else none, d)
  ImageRemove := fun _ _ d => (none, d)
  VolumeRemove := fun _ _ d => (none, d)
  NetworkRemove := fun _ d => (none, d)
  createErrorPanel := fun _ u => (none, u)
  createConfirmationPanel := fun _ _ u => (none, u)
  Tr := { Confirm := "Confirm", ConfirmDeleteSelected := header, RemovingStatus := "Removing" }

/-- The map with the keys `ks`, built with `m[k] = true`. -/
def selectKeys (ks : List String) : GoMap :=
  ks.foldl (fun m k => GoMap.set m k true) GoMap.make

/-- A state of the instance with the given selection and an empty log. -/
def demoGui (containers images volumes networks : List String) : Gui Unit Unit where
  MultiSelect :=
    { Containers := selectKeys containers, Images := selectKeys images,
      Volumes := selectKeys volumes, Networks := selectKeys networks }
  ui := ()
  docker := ()
  log := []

/-- The same panel, with a `RerenderList` that fails. -/
def failRender {α : Type} (p : SideListPanel Unit α) : SideListPanel Unit α :=
  { p with RerenderList := fun u => (some "cannot draw", u) }

/-- The instance with an empty header, where every `RerenderList` fails. -/
def demoEnvNoDraw : Env Unit Unit :=
  { demoEnv "" with
    Containers := failRender (demoEnv "").Containers,
    Images := failRender (demoEnv "").Images,
    Volumes := failRender (demoEnv "").Volumes,
    Networks := failRender (demoEnv "").Networks }

/-! ## More vocabulary of the statements -/

/-- The deselect-all handler of the category `c`. -/
def handleDeselectAll (env : Env U D) : Category → Gui U D → Option String × Gui U D
  | Category.container => handleDeselectAllContainers env
  | Category.image => handleDeselectAllImages env
  | Category.volume => handleDeselectAllVolumes env
  | Category.network => handleDeselectAllNetworks env

/-- The method `RerenderList()` of the panel of category `c`. -/
def rerenderOf (env : Env U D) : Category → U → Option String × U
  | Category.container => env.Containers.RerenderList
  | Category.image => env.Images.RerenderList
  | Category.volume => env.Volumes.RerenderList
  | Category.network => env.Networks.RerenderList

/-- The method `SelectNextLine()` of the panel of category `c`. -/
def selectNextOf (env : Env U D) : Category → U → U
  | Category.container => env.Containers.SelectNextLine
  | Category.image => env.Images.SelectNextLine
  | Category.volume => env.Volumes.SelectNextLine
  | Category.network => env.Networks.SelectNextLine

/-- The identifiers of all the items of the panel of category `c`
(`List.GetAllItems()`), filtered out or not. -/
def allKeys (env : Env U D) (u : U) : Category → List String
  | Category.container => (env.Containers.GetAllItems u).map (fun ctr => ctr.ID)
  | Category.image => (env.Images.GetAllItems u).map (fun img => img.ID)
  | Category.volume => (env.Volumes.GetAllItems u).map (fun vol => vol.Name)
  | Category.network => (env.Networks.GetAllItems u).map (fun net => net.Name)

/-- The counts that `buildDeleteConfirmationMessage` looks at, with the word
of each category, in the order of lines 201-212. -/
def categoryCounts (g : Gui U D) : List (Nat × String) :=
  [(g.MultiSelect.Containers.len, "container"), (g.MultiSelect.Images.len, "image"),
    (g.MultiSelect.Volumes.len, "volume"), (g.MultiSelect.Networks.len, "network")]

/-- One operation of `multi_select.go` on the state: a call of a handler, of
`clearAllSelections`, of `handleDeleteSelected`, or of the body of
`deleteSelectedItems` with the order in which it visits the keys. -/
inductive Op where
  | toggle (c : Category)
  | selectAll (c : Category)
  | deselectAll (c : Category)
  | clearAll
  | deleteSelected
  | batchDelete (o : RangeOrder)

/-- The state after one operation. -/
def applyOp (env : Env U D) (g : Gui U D) : Op → Gui U D
  | Op.toggle c => (handleToggleSelection env c g).2
  | Op.selectAll c => (handleSelectAll env c g).2
  | Op.deselectAll c => (handleDeselectAll env c g).2
  | Op.clearAll => clearAllSelections g
  | Op.deleteSelected => (handleDeleteSelected env g).2
  | Op.batchDelete o => (deleteSelectedItems env o g).2

/-- The state after a sequence of operations. -/
def runOps (env : Env U D) (ops : List Op) (g : Gui U D) : Gui U D :=
  ops.foldl (applyOp env) g

/-! ## The external calls themselves

The log says which calls were made.  The definitions below say what the
calls do: `runCalls` hands each call of a list to the function of `env` it
names, with the arguments it names and on the Docker state that the calls
before it left, and collects what each one returns. -/

/-- The removal function of `env` that a call names, applied to the arguments
of the call on the Docker state `d`: what it returns, and the Docker state it
leaves.  A call that is not a removal leaves Docker alone. -/
def applyCall (env : Env U D) (d : D) : Call → Option String × D
  | Call.ContainerRemove ctr opts => env.ContainerRemove ctr opts d
  | Call.ImageRemove img opts => env.ImageRemove img opts d
  | Call.VolumeRemove vol force => env.VolumeRemove vol force d
  | Call.NetworkRemove net => env.NetworkRemove net d
  | _ => (none, d)

/-- The calls `cs` applied one after the other from the Docker state `d`:
each call with what it returned, and the Docker state at the end. -/
def runCalls (env : Env U D) : List Call → D → List Event × D
  | [], d => ([], d)
  | c :: cs, d =>
    ((⟨c, (applyCall env d c).1⟩ : Event) :: (runCalls env cs (applyCall env d c).2).1,
      (runCalls env cs (applyCall env d c).2).2)

/-- A run of loop iterations from `st` to `r` made the calls `calls` on `env`,
one after the other: it logged what they returned and left the Docker state
they left. -/
def Threaded (env : Env U D) (st r : Gui U D × List String) (calls : List Call) : Prop :=
  r.1.log = st.1.log ++ (runCalls env calls st.1.docker).1 ∧
    r.1.docker = (runCalls env calls st.1.docker).2

/-! ## A second instance

The Docker state is the list of the names removed so far.  A removal fails
when it is not forced, and an image removal also when it does not prune; the
container `B` is busy; the image `I` is in use until the container `A` has
been removed.  `createErrorPanel` returns the text it is given as its
error. -/

/-- The second instance. -/
def strictEnv : Env Unit (List String) where
  Containers := fixedPanel [⟨"a", "A"⟩, ⟨"b", "B"⟩] [⟨"a", "A"⟩, ⟨"b", "B"⟩, ⟨"c", "C"⟩]
    (Except.ok ⟨"a", "A"⟩)
  Images := fixedPanel [⟨"i", "I"⟩] [⟨"i", "I"⟩] (Except.ok ⟨"i", "I"⟩)
  Volumes := fixedPanel [⟨"v"⟩] [⟨"v"⟩] (Except.ok ⟨"v"⟩)
  Networks := fixedPanel [⟨"n"⟩] [⟨"n"⟩] (Except.ok ⟨"n"⟩)
  ContainerRemove := fun ctr opts d =>
    if opts.Force = false then (some "not forced", d)
    else if ctr.Name = "B" then (some "resource busy", d)
    else (none, d ++ [ctr.Name])
  ImageRemove := fun img opts d =>
    if opts.Force = false then (some "not forced", d)
    else if opts.PruneChildren = false then (some "has children", d)
    else if "A" ∈ d then (none, d ++ [img.Name])
    else (some "image in use", d)
  VolumeRemove := fun vol force d =>
    if force = false then (some "not forced", d) else (none, d ++ [vol.Name])
  NetworkRemove := fun net d => (none, d ++ [net.Name])
  createErrorPanel := fun message u => (some message, u)
  createConfirmationPanel := fun _ _ u => (none, u)
  Tr := { Confirm := "Confirm", ConfirmDeleteSelected := "", RemovingStatus := "Removing" }

/-- A state of the second instance with the given selection, nothing removed
and an empty log. -/
def strictGui (containers images volumes networks : List String) :
    Gui Unit (List String) where
  MultiSelect :=
    { Containers := selectKeys containers, Images := selectKeys images,
      Volumes := selectKeys volumes, Networks := selectKeys networks }
  ui := ()
  docker := []
  log := []

theorem LoopSpec.refl (st : Gui U D × List String) : LoopSpec st st [] :=
  ⟨[], by simp, by simp, rfl, rfl, rfl⟩

theorem LoopSpec.trans {a b c : Gui U D × List String} {c1 c2 : List Call}
    (h1 : LoopSpec a b c1) (h2 : LoopSpec b c c2) : LoopSpec a c (c1 ++ c2) := by
  obtain ⟨e1, hl1, he1, hc1, hu1, hm1⟩ := h1
  obtain ⟨e2, hl2, he2, hc2, hu2, hm2⟩ := h2
  refine ⟨e1 ++ e2, ?_, ?_, ?_, ?_, ?_⟩
  · rw [hl2, hl1, List.append_assoc]
  · rw [he2, he1, List.filterMap_append, List.append_assoc]
  · rw [List.map_append, hc1, hc2]
  · rw [hu2, hu1]
  · rw [hm2, hm1]

theorem deleteContainerStep_spec (env : Env U D) (st : Gui U D × List String) (id : String) :
    LoopSpec st (deleteContainerStep env st id)
      ((findContainerByID env st.1 id).toList.map
        (fun ctr => Call.ContainerRemove ctr { Force := true })) := by
  unfold deleteContainerStep
  cases hf : findContainerByID env st.1 id with
  | none => exact LoopSpec.refl st
  | some ctr =>
    cases hr : (env.ContainerRemove ctr { Force := true } st.1.docker).1 with
    | none =>
      exact ⟨[⟨Call.ContainerRemove ctr { Force := true }, none⟩],
        by simp [hr], by simp [hr, failureLine], by simp, by simp [hr], by simp [hr]⟩
    | some err =>
      exact ⟨[⟨Call.ContainerRemove ctr { Force := true }, some err⟩],
        by simp [hr], by simp [hr, failureLine], by simp, by simp [hr], by simp [hr]⟩

theorem deleteImageStep_spec (env : Env U D) (st : Gui U D × List String) (id : String) :
    LoopSpec st (deleteImageStep env st id)
      ((findImageByID env st.1 id).toList.map
        (fun img => Call.ImageRemove img { Force := true, PruneChildren := true })) := by
  unfold deleteImageStep
  cases hf : findImageByID env st.1 id with
  | none => exact LoopSpec.refl st
  | some img =>
    cases hr : (env.ImageRemove img { Force := true, PruneChildren := true } st.1.docker).1 with
    | none =>
      exact ⟨[⟨Call.ImageRemove img { Force := true, PruneChildren := true }, none⟩],
        by simp [hr], by simp [hr, failureLine], by simp, by simp [hr], by simp [hr]⟩
    | some err =>
      exact ⟨[⟨Call.ImageRemove img { Force := true, PruneChildren := true }, some err⟩],
        by simp [hr], by simp [hr, failureLine], by simp, by simp [hr], by simp [hr]⟩

theorem deleteVolumeStep_spec (env : Env U D) (st : Gui U D × List String) (id : String) :
    LoopSpec st (deleteVolumeStep env st id)
      ((findVolumeByName env st.1 id).toList.map (fun vol => Call.VolumeRemove vol true)) := by
  unfold deleteVolumeStep
  cases hf : findVolumeByName env st.1 id with
  | none => exact LoopSpec.refl st
  | some vol =>
    cases hr : (env.VolumeRemove vol true st.1.docker).1 with
    | none =>
      exact ⟨[⟨Call.VolumeRemove vol true, none⟩],
        by simp [hr], by simp [hr, failureLine], by simp, by simp [hr], by simp [hr]⟩
    | some err =>
      exact ⟨[⟨Call.VolumeRemove vol true, some err⟩],
        by simp [hr], by simp [hr, failureLine], by simp, by simp [hr], by simp [hr]⟩

theorem deleteNetworkStep_spec (env : Env U D) (st : Gui U D × List String) (id : String) :
    LoopSpec st (deleteNetworkStep env st id)
      ((findNetworkByName env st.1 id).toList.map (fun net => Call.NetworkRemove net)) := by
  unfold deleteNetworkStep
  cases hf : findNetworkByName env st.1 id with
  | none => exact LoopSpec.refl st
  | some net =>
    cases hr : (env.NetworkRemove net st.1.docker).1 with
    | none =>
      exact ⟨[⟨Call.NetworkRemove net, none⟩],
        by simp [hr], by simp [hr, failureLine], by simp, by simp [hr], by simp [hr]⟩
    | some err =>
      exact ⟨[⟨Call.NetworkRemove net, some err⟩],
        by simp [hr], by simp [hr, failureLine], by simp, by simp [hr], by simp [hr]⟩

theorem findContainerByID_congr (env : Env U D) {g1 g2 : Gui U D} (h : g1.ui = g2.ui) :
    findContainerByID env g1 = findContainerByID env g2 := by
  funext id; simp [findContainerByID, h]

theorem findImageByID_congr (env : Env U D) {g1 g2 : Gui U D} (h : g1.ui = g2.ui) :
    findImageByID env g1 = findImageByID env g2 := by
  funext id; simp [findImageByID, h]

theorem findVolumeByName_congr (env : Env U D) {g1 g2 : Gui U D} (h : g1.ui = g2.ui) :
    findVolumeByName env g1 = findVolumeByName env g2 := by
  funext id; simp [findVolumeByName, h]

theorem findNetworkByName_congr (env : Env U D) {g1 g2 : Gui U D} (h : g1.ui = g2.ui) :
    findNetworkByName env g1 = findNetworkByName env g2 := by
  funext id; simp [findNetworkByName, h]

theorem LoopSpec.ui_eq {a b : Gui U D × List String} {c : List Call} (h : LoopSpec a b c) :
    b.1.ui = a.1.ui := by
  obtain ⟨_, _, _, _, hu, _⟩ := h
  exact hu

theorem toList_map_append_filterMap {α β : Type} (f : String → Option α) (mk : α → β)
    (id : String) (ids : List String) :
    (f id).toList.map mk ++ (ids.filterMap f).map mk = ((id :: ids).filterMap f).map mk := by
  cases h : f id <;> simp [List.filterMap_cons, h]

theorem foldl_deleteContainerStep_spec (env : Env U D) (ids : List String) :
    ∀ st : Gui U D × List String,
      LoopSpec st (ids.foldl (deleteContainerStep env) st)
        ((ids.filterMap (findContainerByID env st.1)).map
          (fun ctr => Call.ContainerRemove ctr { Force := true })) := by
  induction ids with
  | nil => intro st; exact LoopSpec.refl st
  | cons id ids ih =>
    intro st
    have h1 := deleteContainerStep_spec env st id
    have h2 := ih (deleteContainerStep env st id)
    rw [findContainerByID_congr env h1.ui_eq] at h2
    have h3 := h1.trans h2
    rw [toList_map_append_filterMap] at h3
    exact h3

theorem foldl_deleteImageStep_spec (env : Env U D) (ids : List String) :
    ∀ st : Gui U D × List String,
      LoopSpec st (ids.foldl (deleteImageStep env) st)
        ((ids.filterMap (findImageByID env st.1)).map
          (fun img => Call.ImageRemove img { Force := true, PruneChildren := true })) := by
  induction ids with
  | nil => intro st; exact LoopSpec.refl st
  | cons id ids ih =>
    intro st
    have h1 := deleteImageStep_spec env st id
    have h2 := ih (deleteImageStep env st id)
    rw [findImageByID_congr env h1.ui_eq] at h2
    have h3 := h1.trans h2
    rw [toList_map_append_filterMap] at h3
    exact h3

theorem foldl_deleteVolumeStep_spec (env : Env U D) (ids : List String) :
    ∀ st : Gui U D × List String,
      LoopSpec st (ids.foldl (deleteVolumeStep env) st)
        ((ids.filterMap (findVolumeByName env st.1)).map
          (fun vol => Call.VolumeRemove vol true)) := by
  induction ids with
  | nil => intro st; exact LoopSpec.refl st
  | cons id ids ih =>
    intro st
    have h1 := deleteVolumeStep_spec env st id
    have h2 := ih (deleteVolumeStep env st id)
    rw [findVolumeByName_congr env h1.ui_eq] at h2
    have h3 := h1.trans h2
    rw [toList_map_append_filterMap] at h3
    exact h3

theorem foldl_deleteNetworkStep_spec (env : Env U D) (ids : List String) :
    ∀ st : Gui U D × List String,
      LoopSpec st (ids.foldl (deleteNetworkStep env) st)
        ((ids.filterMap (findNetworkByName env st.1)).map
          (fun net => Call.NetworkRemove net)) := by
  induction ids with
  | nil => intro st; exact LoopSpec.refl st
  | cons id ids ih =>
    intro st
    have h1 := deleteNetworkStep_spec env st id
    have h2 := ih (deleteNetworkStep env st id)
    rw [findNetworkByName_congr env h1.ui_eq] at h2
    have h3 := h1.trans h2
    rw [toList_map_append_filterMap] at h3
    exact h3

/-- The four loops together make the expected calls, in order, and collect
the failure lines of the events they log. -/
theorem removeSelected_spec (env : Env U D) (o : RangeOrder) (g : Gui U D) :
    LoopSpec (g, []) (removeSelected env o g) (expectedCalls env o g) := by
  unfold removeSelected expectedCalls
  have h1 := foldl_deleteContainerStep_spec env o.Containers (g, [])
  have h2 := foldl_deleteImageStep_spec env o.Images
    (o.Containers.foldl (deleteContainerStep env) (g, []))
  rw [findImageByID_congr env h1.ui_eq] at h2
  have h12 := h1.trans h2
  have h3 := foldl_deleteVolumeStep_spec env o.Volumes
    (o.Images.foldl (deleteImageStep env) (o.Containers.foldl (deleteContainerStep env) (g, [])))
  rw [findVolumeByName_congr env h12.ui_eq] at h3
  have h123 := h12.trans h3
  have h4 := foldl_deleteNetworkStep_spec env o.Networks
    (o.Volumes.foldl (deleteVolumeStep env) (o.Images.foldl (deleteImageStep env)
      (o.Containers.foldl (deleteContainerStep env) (g, []))))
  rw [findNetworkByName_congr env h123.ui_eq] at h4
  exact h123.trans h4

theorem removeSelected_log (env : Env U D) (o : RangeOrder) (g : Gui U D) :
    (removeSelected env o g).1.log = g.log ++ removalEvents env o g := by
  obtain ⟨evs, hl, _, _, _, _⟩ := removeSelected_spec env o g
  simp only [removalEvents, hl, List.drop_left]

theorem removeSelected_errors (env : Env U D) (o : RangeOrder) (g : Gui U D) :
    (removeSelected env o g).2 = (removalEvents env o g).filterMap failureLine := by
  obtain ⟨evs, hl, he, _, _, _⟩ := removeSelected_spec env o g
  simp only [removalEvents, hl, List.drop_left, he, List.nil_append]

theorem removalEvents_calls (env : Env U D) (o : RangeOrder) (g : Gui U D) :
    (removalEvents env o g).map Event.call = expectedCalls env o g := by
  obtain ⟨evs, hl, _, hc, _, _⟩ := removeSelected_spec env o g
  simp only [removalEvents, hl, List.drop_left, hc]

theorem removeSelected_ui (env : Env U D) (o : RangeOrder) (g : Gui U D) :
    (removeSelected env o g).1.ui = g.ui := by
  obtain ⟨_, _, _, _, hu, _⟩ := removeSelected_spec env o g
  exact hu

theorem removeSelected_MultiSelect (env : Env U D) (o : RangeOrder) (g : Gui U D) :
    (removeSelected env o g).1.MultiSelect = g.MultiSelect := by
  obtain ⟨_, _, _, _, _, hm⟩ := removeSelected_spec env o g
  exact hm

/-! ### Lookups return an item with the identifier asked for -/

theorem findContainerIn_some {all : List Container} {id : String} {c : Container}
    (h : findContainerIn all id = some c) : c.ID = id ∧ c ∈ all := by
  induction all with
  | nil => simp [findContainerIn] at h
  | cons a rest ih =>
    unfold findContainerIn at h
    split at h
    · rename_i ha
      cases h
      exact ⟨ha, List.mem_cons_self _ _⟩
    · exact ⟨(ih h).1, List.mem_cons_of_mem _ (ih h).2⟩

theorem findImageIn_some {all : List Image} {id : String} {c : Image}
    (h : findImageIn all id = some c) : c.ID = id ∧ c ∈ all := by
  induction all with
  | nil => simp [findImageIn] at h
  | cons a rest ih =>
    unfold findImageIn at h
    split at h
    · rename_i ha
      cases h
      exact ⟨ha, List.mem_cons_self _ _⟩
    · exact ⟨(ih h).1, List.mem_cons_of_mem _ (ih h).2⟩

theorem findVolumeIn_some {all : List Volume} {id : String} {c : Volume}
    (h : findVolumeIn all id = some c) : c.Name = id ∧ c ∈ all := by
  induction all with
  | nil => simp [findVolumeIn] at h
  | cons a rest ih =>
    unfold findVolumeIn at h
    split at h
    · rename_i ha
      cases h
      exact ⟨ha, List.mem_cons_self _ _⟩
    · exact ⟨(ih h).1, List.mem_cons_of_mem _ (ih h).2⟩

theorem findNetworkIn_some {all : List Network} {id : String} {c : Network}
    (h : findNetworkIn all id = some c) : c.Name = id ∧ c ∈ all := by
  induction all with
  | nil => simp [findNetworkIn] at h
  | cons a rest ih =>
    unfold findNetworkIn at h
    split at h
    · rename_i ha
      cases h
      exact ⟨ha, List.mem_cons_self _ _⟩
    · exact ⟨(ih h).1, List.mem_cons_of_mem _ (ih h).2⟩

/-! ### Counting the calls for one identifier -/

/-- When `f` resolves a key only to items that carry that key, no item for
`id` comes out of a list of keys without `id`. -/
theorem countP_filterMap_of_not_mem {α : Type} (f : String → Option α) (key : α → String)
    (hkey : ∀ k a, f k = some a → key a = k) (id : String) :
    ∀ l : List String, id ∉ l →
      (l.filterMap f).countP (fun a => decide (key a = id)) = 0 := by
  intro l hl
  rw [List.countP_eq_zero]
  intro a ha
  obtain ⟨k, hk, hfk⟩ := List.mem_filterMap.1 ha
  have := hkey k a hfk
  simp only [decide_eq_true_eq]
  intro h
  exact hl (by rw [← h, this]; exact hk)

/-- Over a list of keys without repetition, a key that resolves yields exactly
one item that carries it. -/
theorem countP_filterMap_of_mem {α : Type} (f : String → Option α) (key : α → String)
    (hkey : ∀ k a, f k = some a → key a = k) (id : String) (hres : (f id).isSome = true) :
    ∀ l : List String, l.Nodup → id ∈ l →
      (l.filterMap f).countP (fun a => decide (key a = id)) = 1 := by
  intro l
  induction l with
  | nil => intro _ h; simp at h
  | cons k l ih =>
    intro hnd hmem
    have hk : k ∉ l := (List.nodup_cons.1 hnd).1
    have hl : l.Nodup := (List.nodup_cons.1 hnd).2
    by_cases hid : id = k
    · subst hid
      obtain ⟨a, ha⟩ := Option.isSome_iff_exists.1 hres
      rw [List.filterMap_cons_some ha, List.countP_cons_of_pos]
      · rw [countP_filterMap_of_not_mem f key hkey id l hk]
      · simp [hkey id a ha]
    · have hmem2 : id ∈ l := by
        rcases List.mem_cons.1 hmem with h | h
        · exact absurd h hid
        · exact h
      cases hfk : f k with
      | none => rw [List.filterMap_cons_none hfk]; exact ih hl hmem2
      | some a =>
        rw [List.filterMap_cons_some hfk, List.countP_cons_of_neg]
        · exact ih hl hmem2
        · have := hkey k a hfk
          simp only [decide_eq_true_eq]
          intro h
          exact hid (by rw [← h, this])

/-- No item for `id` comes out when `id` does not resolve. -/
theorem countP_filterMap_of_unresolved {α : Type} (f : String → Option α) (key : α → String)
    (hkey : ∀ k a, f k = some a → key a = k) (id : String) (hres : f id = none)
    (l : List String) :
    (l.filterMap f).countP (fun a => decide (key a = id)) = 0 := by
  rw [List.countP_eq_zero]
  intro a ha
  obtain ⟨k, _, hfk⟩ := List.mem_filterMap.1 ha
  have := hkey k a hfk
  simp only [decide_eq_true_eq]
  intro h
  rw [this] at h
  rw [h, hres] at hfk
  cases hfk

theorem findContainerByID_key (env : Env U D) (g : Gui U D) :
    ∀ k a, findContainerByID env g k = some a → a.ID = k :=
  fun _ _ h => (findContainerIn_some h).1

theorem findImageByID_key (env : Env U D) (g : Gui U D) :
    ∀ k a, findImageByID env g k = some a → a.ID = k :=
  fun _ _ h => (findImageIn_some h).1

theorem findVolumeByName_key (env : Env U D) (g : Gui U D) :
    ∀ k a, findVolumeByName env g k = some a → a.Name = k :=
  fun _ _ h => (findVolumeIn_some h).1

theorem findNetworkByName_key (env : Env U D) (g : Gui U D) :
    ∀ k a, findNetworkByName env g k = some a → a.Name = k :=
  fun _ _ h => (findNetworkIn_some h).1

/-- The number of expected calls that remove the item selected as `id` in the
category `c` is the number of items carrying `id` that the keys of that
category resolve to. -/
theorem countP_expectedCalls (env : Env U D) (o : RangeOrder) (g : Gui U D)
    (c : Category) (id : String) :
    (expectedCalls env o g).countP (fun x => decide (x.removedKey = some (c, id))) =
      match c with
      | Category.container =>
        (o.Containers.filterMap (findContainerByID env g)).countP (fun a => decide (a.ID = id))
      | Category.image =>
        (o.Images.filterMap (findImageByID env g)).countP (fun a => decide (a.ID = id))
      | Category.volume =>
        (o.Volumes.filterMap (findVolumeByName env g)).countP (fun a => decide (a.Name = id))
      | Category.network =>
        (o.Networks.filterMap (findNetworkByName env g)).countP
          (fun a => decide (a.Name = id)) := by
  unfold expectedCalls
  cases c <;>
    simp [List.countP_append, List.countP_map, Function.comp_def, Call.removedKey,
      List.countP_eq_zero]

theorem countP_removalEvents (env : Env U D) (o : RangeOrder) (g : Gui U D)
    (c : Category) (id : String) :
    (removalEvents env o g).countP (fun e => decide (e.call.removedKey = some (c, id))) =
      (expectedCalls env o g).countP (fun x => decide (x.removedKey = some (c, id))) := by
  rw [← removalEvents_calls, List.countP_map]
  rfl

/-! ### The batch deletion as a whole -/

theorem deleteSelectedItems_of_no_failure (env : Env U D) (o : RangeOrder) (g : Gui U D)
    (h : (removeSelected env o g).2 = []) :
    deleteSelectedItems env o g = (none, clearAllSelections (removeSelected env o g).1) := by
  simp [deleteSelectedItems, h]

theorem deleteSelectedItems_of_failure (env : Env U D) (o : RangeOrder) (g : Gui U D)
    (h : (removeSelected env o g).2 ≠ []) :
    deleteSelectedItems env o g =
      createErrorPanel env (String.intercalate "\n" (removeSelected env o g).2)
        (clearAllSelections (removeSelected env o g).1) := by
  have : 0 < (removeSelected env o g).2.length := List.length_pos.2 h
  simp [deleteSelectedItems, this]

/-- The log after the batch deletion: the old log, the removal events, and
then nothing but a possible `createErrorPanel` event. -/
theorem deleteSelectedItems_log (env : Env U D) (o : RangeOrder) (g : Gui U D) :
    ∃ tail : List Event,
      (deleteSelectedItems env o g).2.log = g.log ++ removalEvents env o g ++ tail ∧
      ∀ e ∈ tail, e.call.rank = 4 ∧ e.call.removedKey = none := by
  by_cases h : (removeSelected env o g).2 = []
  · refine ⟨[], ?_, by simp⟩
    rw [deleteSelectedItems_of_no_failure env o g h]
    simp [clearAllSelections, removeSelected_log]
  · refine ⟨[⟨Call.createErrorPanel (String.intercalate "\n" (removeSelected env o g).2),
      (env.createErrorPanel (String.intercalate "\n" (removeSelected env o g).2)
        (removeSelected env o g).1.ui).1⟩], ?_, by simp [Call.rank, Call.removedKey]⟩
    rw [deleteSelectedItems_of_failure env o g h]
    simp [createErrorPanel, clearAllSelections, removeSelected_log]

/-- The events that a whole run of the batch deletion appends to the log. -/
theorem batchEvents_eq (env : Env U D) (o : RangeOrder) (g : Gui U D) :
    ∃ tail : List Event,
      (deleteSelectedItems env o g).2.log.drop g.log.length = removalEvents env o g ++ tail ∧
      ∀ e ∈ tail, e.call.rank = 4 ∧ e.call.removedKey = none := by
  obtain ⟨tail, hl, ht⟩ := deleteSelectedItems_log env o g
  exact ⟨tail, by rw [hl, List.append_assoc, List.drop_left], ht⟩

theorem mem_expectedCalls_rank (env : Env U D) (o : RangeOrder) (g : Gui U D) :
    ∀ x ∈ expectedCalls env o g, x.rank < 4 := by
  intro x hx
  simp only [expectedCalls, List.mem_append, List.mem_map] at hx
  rcases hx with ((⟨_, _, rfl⟩ | ⟨_, _, rfl⟩) | ⟨_, _, rfl⟩) | ⟨_, _, rfl⟩ <;> simp [Call.rank]

theorem failureLine_isSome_of_rank {e : Event} (h : e.call.rank < 4) :
    (failureLine e).isSome = e.err.isSome := by
  obtain ⟨call, err⟩ := e
  cases call <;> cases err <;> simp_all [failureLine, Call.rank]

theorem mem_removalEvents_rank (env : Env U D) (o : RangeOrder) (g : Gui U D) :
    ∀ e ∈ removalEvents env o g, e.call.rank < 4 := by
  intro e he
  apply mem_expectedCalls_rank env o g
  rw [← removalEvents_calls]
  exact List.mem_map_of_mem _ he

theorem length_filterMap_eq_countP {α β : Type} (f : α → Option β) (l : List α) :
    (l.filterMap f).length = l.countP (fun a => (f a).isSome) := by
  induction l with
  | nil => rfl
  | cons a l ih =>
    cases h : f a with
    | none => rw [List.filterMap_cons_none h, List.countP_cons_of_neg _ _ (by simp [h]), ih]
    | some b =>
      rw [List.filterMap_cons_some h, List.countP_cons_of_pos _ _ (by simp [h]),
        List.length_cons, ih]

/-- A selected identifier that resolves is the subject of exactly one removal
event. -/
theorem countP_removalEvents_of_selected (env : Env U D) (o : RangeOrder) (g : Gui U D)
    (hv : o.Valid g.MultiSelect) (c : Category) (id : String)
    (hsel : id ∈ (g.MultiSelect.sel c).keys) (hres : resolves env g c id = true) :
    (removalEvents env o g).countP (fun e => decide (e.call.removedKey = some (c, id))) = 1 := by
  rw [countP_removalEvents, countP_expectedCalls]
  obtain ⟨⟨hn1, hk1⟩, ⟨hn2, hk2⟩, ⟨hn3, hk3⟩, ⟨hn4, hk4⟩⟩ := hv
  cases c
  · exact countP_filterMap_of_mem _ _ (findContainerByID_key env g) id hres _ hn1
      (by rw [← List.mem_toFinset, hk1]; exact hsel)
  · exact countP_filterMap_of_mem _ _ (findImageByID_key env g) id hres _ hn2
      (by rw [← List.mem_toFinset, hk2]; exact hsel)
  · exact countP_filterMap_of_mem _ _ (findVolumeByName_key env g) id hres _ hn3
      (by rw [← List.mem_toFinset, hk3]; exact hsel)
  · exact countP_filterMap_of_mem _ _ (findNetworkByName_key env g) id hres _ hn4
      (by rw [← List.mem_toFinset, hk4]; exact hsel)

/-- An identifier that does not resolve is the subject of no removal event. -/
theorem countP_removalEvents_of_unresolved (env : Env U D) (o : RangeOrder) (g : Gui U D)
    (c : Category) (id : String) (hres : resolves env g c id = false) :
    (removalEvents env o g).countP (fun e => decide (e.call.removedKey = some (c, id))) = 0 := by
  rw [countP_removalEvents, countP_expectedCalls]
  cases c
  · exact countP_filterMap_of_unresolved _ _ (findContainerByID_key env g) id
      (by simpa [resolves] using hres) _
  · exact countP_filterMap_of_unresolved _ _ (findImageByID_key env g) id
      (by simpa [resolves] using hres) _
  · exact countP_filterMap_of_unresolved _ _ (findVolumeByName_key env g) id
      (by simpa [resolves] using hres) _
  · exact countP_filterMap_of_unresolved _ _ (findNetworkByName_key env g) id
      (by simpa [resolves] using hres) _

theorem countP_append_tail (l tail : List Event) (c : Category) (id : String)
    (ht : ∀ e ∈ tail, e.call.rank = 4 ∧ e.call.removedKey = none) :
    (l ++ tail).countP (fun e => decide (e.call.removedKey = some (c, id))) =
      l.countP (fun e => decide (e.call.removedKey = some (c, id))) := by
  rw [List.countP_append, Nat.add_right_eq_self, List.countP_eq_zero]
  intro e he
  simp [(ht e he).2]

/-! ### The order of the events -/

/-- The removal events fall into four consecutive runs, one per loop. -/
theorem removalEvents_split (env : Env U D) (o : RangeOrder) (g : Gui U D) :
    ∃ ec ei ev en : List Event,
      removalEvents env o g = ec ++ ei ++ ev ++ en ∧
      ec.map Event.call = (o.Containers.filterMap (findContainerByID env g)).map
        (fun ctr => Call.ContainerRemove ctr { Force := true }) ∧
      ei.map Event.call = (o.Images.filterMap (findImageByID env g)).map
        (fun img => Call.ImageRemove img { Force := true, PruneChildren := true }) ∧
      ev.map Event.call = (o.Volumes.filterMap (findVolumeByName env g)).map
        (fun vol => Call.VolumeRemove vol true) ∧
      en.map Event.call = (o.Networks.filterMap (findNetworkByName env g)).map
        (fun net => Call.NetworkRemove net) := by
  have h := removalEvents_calls env o g
  unfold expectedCalls at h
  obtain ⟨l123, en, h1, h2, hn⟩ := List.map_eq_append_iff.1 h
  obtain ⟨l12, ev, h3, h4, hv⟩ := List.map_eq_append_iff.1 h2
  obtain ⟨ec, ei, h5, hc, hi⟩ := List.map_eq_append_iff.1 h4
  exact ⟨ec, ei, ev, en, by rw [h1, h3, h5], hc, hi, hv, hn⟩

theorem call_of_mem_map {α : Type} {l : List Event} {items : List α} {mk : α → Call}
    (h : l.map Event.call = items.map mk) : ∀ e ∈ l, ∃ a ∈ items, e.call = mk a := by
  intro e he
  have : e.call ∈ items.map mk := by rw [← h]; exact List.mem_map_of_mem _ he
  obtain ⟨a, ha, hea⟩ := List.mem_map.1 this
  exact ⟨a, ha, hea.symm⟩

theorem pairwise_rank_of_const {l : List Event} {n : Nat} (h : ∀ e ∈ l, e.call.rank = n) :
    l.Pairwise (fun a b => a.call.rank ≤ b.call.rank) :=
  List.pairwise_of_forall_mem_list (fun a ha b hb => by rw [h a ha, h b hb])

/-- Events whose ranks do not decrease: an event of lower rank comes before
every event of higher rank. -/
theorem lt_of_rank_lt {l : List Event}
    (hp : l.Pairwise (fun a b => a.call.rank ≤ b.call.rank))
    (i j : Nat) (hi : i < l.length) (hj : j < l.length)
    (h : (l.get ⟨i, hi⟩).call.rank < (l.get ⟨j, hj⟩).call.rank) : i < j := by
  by_contra hij
  rcases Nat.lt_or_eq_of_le (Nat.le_of_not_lt hij) with hlt | heq
  · have := List.pairwise_iff_getElem.1 hp j i hj hi hlt
    simp only [List.get_eq_getElem] at h
    omega
  · subst heq
    exact Nat.lt_irrefl _ h

theorem batchEvents_pairwise (env : Env U D) (o : RangeOrder) (g : Gui U D) :
    ((deleteSelectedItems env o g).2.log.drop g.log.length).Pairwise
      (fun a b => a.call.rank ≤ b.call.rank) := by
  obtain ⟨tail, hb, ht⟩ := batchEvents_eq env o g
  obtain ⟨ec, ei, ev, en, hs, hc, hi, hv, hn⟩ := removalEvents_split env o g
  have rc : ∀ e ∈ ec, e.call.rank = 0 := fun e he => by
    obtain ⟨a, _, h⟩ := call_of_mem_map hc e he
    rw [h]; rfl
  have ri : ∀ e ∈ ei, e.call.rank = 1 := fun e he => by
    obtain ⟨a, _, h⟩ := call_of_mem_map hi e he
    rw [h]; rfl
  have rv : ∀ e ∈ ev, e.call.rank = 2 := fun e he => by
    obtain ⟨a, _, h⟩ := call_of_mem_map hv e he
    rw [h]; rfl
  have rn : ∀ e ∈ en, e.call.rank = 3 := fun e he => by
    obtain ⟨a, _, h⟩ := call_of_mem_map hn e he
    rw [h]; rfl
  have rt : ∀ e ∈ tail, e.call.rank = 4 := fun e he => (ht e he).1
  rw [hb, hs]
  simp only [List.pairwise_append, List.mem_append]
  refine ⟨⟨⟨⟨pairwise_rank_of_const rc, pairwise_rank_of_const ri, ?_⟩,
    pairwise_rank_of_const rv, ?_⟩, pairwise_rank_of_const rn, ?_⟩,
    pairwise_rank_of_const rt, ?_⟩
  · intro a ha b hb
    rw [rc a ha, ri b hb]; decide
  · rintro a (ha | ha) b hb
    · rw [rc a ha, rv b hb]; decide
    · rw [ri a ha, rv b hb]; decide
  · rintro a ((ha | ha) | ha) b hb
    · rw [rc a ha, rn b hb]; decide
    · rw [ri a ha, rn b hb]; decide
    · rw [rv a ha, rn b hb]; decide
  · rintro a (((ha | ha) | ha) | ha) b hb
    · rw [rc a ha, rt b hb]; decide
    · rw [ri a ha, rt b hb]; decide
    · rw [rv a ha, rt b hb]; decide
    · rw [rn a ha, rt b hb]; decide

/-! ### Identifiers that do not resolve -/

theorem foldl_deleteContainerStep_of_unresolved (env : Env U D) (st : Gui U D × List String) :
    ∀ ids : List String, (∀ id ∈ ids, findContainerByID env st.1 id = none) →
      ids.foldl (deleteContainerStep env) st = st := by
  intro ids
  induction ids with
  | nil => intro _; rfl
  | cons id ids ih =>
    intro h
    have h1 : deleteContainerStep env st id = st := by
      simp [deleteContainerStep, h id (List.mem_cons_self _ _)]
    rw [List.foldl_cons, h1]
    exact ih (fun k hk => h k (List.mem_cons_of_mem _ hk))

theorem foldl_deleteImageStep_of_unresolved (env : Env U D) (st : Gui U D × List String) :
    ∀ ids : List String, (∀ id ∈ ids, findImageByID env st.1 id = none) →
      ids.foldl (deleteImageStep env) st = st := by
  intro ids
  induction ids with
  | nil => intro _; rfl
  | cons id ids ih =>
    intro h
    have h1 : deleteImageStep env st id = st := by
      simp [deleteImageStep, h id (List.mem_cons_self _ _)]
    rw [List.foldl_cons, h1]
    exact ih (fun k hk => h k (List.mem_cons_of_mem _ hk))

theorem foldl_deleteVolumeStep_of_unresolved (env : Env U D) (st : Gui U D × List String) :
    ∀ ids : List String, (∀ id ∈ ids, findVolumeByName env st.1 id = none) →
      ids.foldl (deleteVolumeStep env) st = st := by
  intro ids
  induction ids with
  | nil => intro _; rfl
  | cons id ids ih =>
    intro h
    have h1 : deleteVolumeStep env st id = st := by
      simp [deleteVolumeStep, h id (List.mem_cons_self _ _)]
    rw [List.foldl_cons, h1]
    exact ih (fun k hk => h k (List.mem_cons_of_mem _ hk))

theorem foldl_deleteNetworkStep_of_unresolved (env : Env U D) (st : Gui U D × List String) :
    ∀ ids : List String, (∀ id ∈ ids, findNetworkByName env st.1 id = none) →
      ids.foldl (deleteNetworkStep env) st = st := by
  intro ids
  induction ids with
  | nil => intro _; rfl
  | cons id ids ih =>
    intro h
    have h1 : deleteNetworkStep env st id = st := by
      simp [deleteNetworkStep, h id (List.mem_cons_self _ _)]
    rw [List.foldl_cons, h1]
    exact ih (fun k hk => h k (List.mem_cons_of_mem _ hk))

/-- When no selected identifier resolves, the four loops change nothing. -/
theorem removeSelected_of_unresolved (env : Env U D) (o : RangeOrder) (g : Gui U D)
    (hv : o.Valid g.MultiSelect)
    (hall : ∀ c, ∀ id ∈ (g.MultiSelect.sel c).keys, resolves env g c id = false) :
    removeSelected env o g = (g, []) := by
  obtain ⟨⟨_, hk1⟩, ⟨_, hk2⟩, ⟨_, hk3⟩, ⟨_, hk4⟩⟩ := hv
  unfold removeSelected
  simp only
  rw [foldl_deleteContainerStep_of_unresolved, foldl_deleteImageStep_of_unresolved,
    foldl_deleteVolumeStep_of_unresolved, foldl_deleteNetworkStep_of_unresolved]
  · intro id hid
    have := hall Category.network id
      (by show id ∈ g.MultiSelect.Networks.keys; rw [← hk4]; exact List.mem_toFinset.2 hid)
    simpa [resolves] using this
  · intro id hid
    have := hall Category.volume id
      (by show id ∈ g.MultiSelect.Volumes.keys; rw [← hk3]; exact List.mem_toFinset.2 hid)
    simpa [resolves] using this
  · intro id hid
    have := hall Category.image id
      (by show id ∈ g.MultiSelect.Images.keys; rw [← hk2]; exact List.mem_toFinset.2 hid)
    simpa [resolves] using this
  · intro id hid
    have := hall Category.container id
      (by show id ∈ g.MultiSelect.Containers.keys; rw [← hk1]; exact List.mem_toFinset.2 hid)
    simpa [resolves] using this

end Batch

end Lazydocker

/-! ## The batch deletion: the calls on the environment -/

namespace Lazydocker

section Threading

variable {U D : Type}

theorem runCalls_append (env : Env U D) (c1 c2 : List Call) :
    ∀ d : D, runCalls env (c1 ++ c2) d =
      ((runCalls env c1 d).1 ++ (runCalls env c2 (runCalls env c1 d).2).1,
        (runCalls env c2 (runCalls env c1 d).2).2) := by
  induction c1 with
  | nil => intro d; simp [runCalls]
  | cons c cs ih => intro d; simp [runCalls, ih]

theorem runCalls_calls (env : Env U D) (cs : List Call) :
    ∀ d : D, (runCalls env cs d).1.map Event.call = cs := by
  induction cs with
  | nil => intro d; rfl
  | cons c cs ih => intro d; simp [runCalls, ih]

/-- Every event of `runCalls` carries what the function of `env` returned on
the arguments of its call, on some Docker state. -/
theorem mem_runCalls (env : Env U D) (cs : List Call) :
    ∀ (d : D) (e : Event), e ∈ (runCalls env cs d).1 →
      e.call ∈ cs ∧ ∃ d2 : D, e.err = (applyCall env d2 e.call).1 := by
  induction cs with
  | nil => intro d e he; simp [runCalls] at he
  | cons c cs ih =>
    intro d e he
    simp only [runCalls, List.mem_cons] at he
    rcases he with he | he
    · subst he
      exact ⟨List.mem_cons_self _ _, d, rfl⟩
    · obtain ⟨h1, h2⟩ := ih _ e he
      exact ⟨List.mem_cons_of_mem _ h1, h2⟩

theorem threaded_nil (env : Env U D) (st : Gui U D × List String) :
    Threaded env st st [] := by
  simp [Threaded, runCalls]

theorem threaded_append {env : Env U D} {a b c : Gui U D × List String} {c1 c2 : List Call}
    (h1 : Threaded env a b c1) (h2 : Threaded env b c c2) : Threaded env a c (c1 ++ c2) := by
  obtain ⟨hl1, hd1⟩ := h1
  obtain ⟨hl2, hd2⟩ := h2
  constructor
  · rw [hl2, hl1, hd1, runCalls_append, List.append_assoc]
  · rw [hd2, hd1, runCalls_append]

theorem deleteContainerStep_threaded (env : Env U D) (st : Gui U D × List String)
    (id : String) :
    Threaded env st (deleteContainerStep env st id)
      ((findContainerByID env st.1 id).toList.map
        (fun ctr => Call.ContainerRemove ctr { Force := true })) := by
  unfold deleteContainerStep
  cases hf : findContainerByID env st.1 id with
  | none => exact threaded_nil env st
  | some ctr =>
    cases hr : (env.ContainerRemove ctr { Force := true } st.1.docker).1 <;>
      simp [Threaded, runCalls, applyCall, hr]

theorem deleteImageStep_threaded (env : Env U D) (st : Gui U D × List String) (id : String) :
    Threaded env st (deleteImageStep env st id)
      ((findImageByID env st.1 id).toList.map
        (fun img => Call.ImageRemove img { Force := true, PruneChildren := true })) := by
  unfold deleteImageStep
  cases hf : findImageByID env st.1 id with
  | none => exact threaded_nil env st
  | some img =>
    cases hr : (env.ImageRemove img { Force := true, PruneChildren := true } st.1.docker).1 <;>
      simp [Threaded, runCalls, applyCall, hr]

theorem deleteVolumeStep_threaded (env : Env U D) (st : Gui U D × List String) (id : String) :
    Threaded env st (deleteVolumeStep env st id)
      ((findVolumeByName env st.1 id).toList.map (fun vol => Call.VolumeRemove vol true)) := by
  unfold deleteVolumeStep
  cases hf : findVolumeByName env st.1 id with
  | none => exact threaded_nil env st
  | some vol =>
    cases hr : (env.VolumeRemove vol true st.1.docker).1 <;>
      simp [Threaded, runCalls, applyCall, hr]

theorem deleteNetworkStep_threaded (env : Env U D) (st : Gui U D × List String) (id : String) :
    Threaded env st (deleteNetworkStep env st id)
      ((findNetworkByName env st.1 id).toList.map (fun net => Call.NetworkRemove net)) := by
  unfold deleteNetworkStep
  cases hf : findNetworkByName env st.1 id with
  | none => exact threaded_nil env st
  | some net =>
    cases hr : (env.NetworkRemove net st.1.docker).1 <;>
      simp [Threaded, runCalls, applyCall, hr]

theorem foldl_deleteContainerStep_threaded (env : Env U D) (ids : List String) :
    ∀ st : Gui U D × List String,
      Threaded env st (ids.foldl (deleteContainerStep env) st)
        ((ids.filterMap (findContainerByID env st.1)).map
          (fun ctr => Call.ContainerRemove ctr { Force := true })) := by
  induction ids with
  | nil => intro st; exact threaded_nil env st
  | cons id ids ih =>
    intro st
    have h1 := deleteContainerStep_threaded env st id
    have h2 := ih (deleteContainerStep env st id)
    rw [findContainerByID_congr env (deleteContainerStep_spec env st id).ui_eq] at h2
    have h3 := threaded_append h1 h2
    rw [toList_map_append_filterMap] at h3
    exact h3

theorem foldl_deleteImageStep_threaded (env : Env U D) (ids : List String) :
    ∀ st : Gui U D × List String,
      Threaded env st (ids.foldl (deleteImageStep env) st)
        ((ids.filterMap (findImageByID env st.1)).map
          (fun img => Call.ImageRemove img { Force := true, PruneChildren := true })) := by
  induction ids with
  | nil => intro st; exact threaded_nil env st
  | cons id ids ih =>
    intro st
    have h1 := deleteImageStep_threaded env st id
    have h2 := ih (deleteImageStep env st id)
    rw [findImageByID_congr env (deleteImageStep_spec env st id).ui_eq] at h2
    have h3 := threaded_append h1 h2
    rw [toList_map_append_filterMap] at h3
    exact h3

theorem foldl_deleteVolumeStep_threaded (env : Env U D) (ids : List String) :
    ∀ st : Gui U D × List String,
      Threaded env st (ids.foldl (deleteVolumeStep env) st)
        ((ids.filterMap (findVolumeByName env st.1)).map
          (fun vol => Call.VolumeRemove vol true)) := by
  induction ids with
  | nil => intro st; exact threaded_nil env st
  | cons id ids ih =>
    intro st
    have h1 := deleteVolumeStep_threaded env st id
    have h2 := ih (deleteVolumeStep env st id)
    rw [findVolumeByName_congr env (deleteVolumeStep_spec env st id).ui_eq] at h2
    have h3 := threaded_append h1 h2
    rw [toList_map_append_filterMap] at h3
    exact h3

theorem foldl_deleteNetworkStep_threaded (env : Env U D) (ids : List String) :
    ∀ st : Gui U D × List String,
      Threaded env st (ids.foldl (deleteNetworkStep env) st)
        ((ids.filterMap (findNetworkByName env st.1)).map
          (fun net => Call.NetworkRemove net)) := by
  induction ids with
  | nil => intro st; exact threaded_nil env st
  | cons id ids ih =>
    intro st
    have h1 := deleteNetworkStep_threaded env st id
    have h2 := ih (deleteNetworkStep env st id)
    rw [findNetworkByName_congr env (deleteNetworkStep_spec env st id).ui_eq] at h2
    have h3 := threaded_append h1 h2
    rw [toList_map_append_filterMap] at h3
    exact h3

/-- The four loops make the expected calls on `env`, one after the other from
the Docker state of `g`. -/
theorem removeSelected_threaded (env : Env U D) (o : RangeOrder) (g : Gui U D) :
    Threaded env (g, []) (removeSelected env o g) (expectedCalls env o g) := by
  unfold removeSelected expectedCalls
  have s1 := foldl_deleteContainerStep_spec env o.Containers (g, [])
  have h1 := foldl_deleteContainerStep_threaded env o.Containers (g, [])
  have s2 := foldl_deleteImageStep_spec env o.Images
    (o.Containers.foldl (deleteContainerStep env) (g, []))
  have h2 := foldl_deleteImageStep_threaded env o.Images
    (o.Containers.foldl (deleteContainerStep env) (g, []))
  rw [findImageByID_congr env s1.ui_eq] at h2 s2
  have s12 := s1.trans s2
  have h12 := threaded_append h1 h2
  have s3 := foldl_deleteVolumeStep_spec env o.Volumes
    (o.Images.foldl (deleteImageStep env) (o.Containers.foldl (deleteContainerStep env) (g, [])))
  have h3 := foldl_deleteVolumeStep_threaded env o.Volumes
    (o.Images.foldl (deleteImageStep env) (o.Containers.foldl (deleteContainerStep env) (g, [])))
  rw [findVolumeByName_congr env s12.ui_eq] at h3 s3
  have s123 := s12.trans s3
  have h123 := threaded_append h12 h3
  have h4 := foldl_deleteNetworkStep_threaded env o.Networks
    (o.Volumes.foldl (deleteVolumeStep env) (o.Images.foldl (deleteImageStep env)
      (o.Containers.foldl (deleteContainerStep env) (g, []))))
  rw [findNetworkByName_congr env s123.ui_eq] at h4
  exact threaded_append h123 h4

/-- The removal events are what the functions of `env` returned on the
expected calls, made one after the other. -/
theorem removalEvents_eq_runCalls (env : Env U D) (o : RangeOrder) (g : Gui U D) :
    removalEvents env o g = (runCalls env (expectedCalls env o g) g.docker).1 := by
  obtain ⟨hl, _⟩ := removeSelected_threaded env o g
  simp only [removalEvents, hl, List.drop_left]

theorem removeSelected_docker (env : Env U D) (o : RangeOrder) (g : Gui U D) :
    (removeSelected env o g).1.docker = (runCalls env (expectedCalls env o g) g.docker).2 :=
  (removeSelected_threaded env o g).2

/-- The Docker state after the body is the one the removal calls left. -/
theorem deleteSelectedItems_docker (env : Env U D) (o : RangeOrder) (g : Gui U D) :
    (deleteSelectedItems env o g).2.docker =
      (runCalls env (expectedCalls env o g) g.docker).2 := by
  rw [← removeSelected_docker]
  by_cases h : (removeSelected env o g).2 = []
  · rw [deleteSelectedItems_of_no_failure env o g h]; rfl
  · rw [deleteSelectedItems_of_failure env o g h]; rfl

/-- The body returns what `env.createErrorPanel` returns on the joined lines,
and leaves the interface state that call leaves; without a failure it returns
`nil` and leaves the interface state alone. -/
theorem deleteSelectedItems_result (env : Env U D) (o : RangeOrder) (g : Gui U D) :
    ((removeSelected env o g).2 = [] →
      (deleteSelectedItems env o g).1 = none ∧ (deleteSelectedItems env o g).2.ui = g.ui) ∧
    ((removeSelected env o g).2 ≠ [] →
      (deleteSelectedItems env o g).1 =
          (env.createErrorPanel (String.intercalate "\n" (removeSelected env o g).2) g.ui).1 ∧
        (deleteSelectedItems env o g).2.ui =
          (env.createErrorPanel (String.intercalate "\n" (removeSelected env o g).2)
            g.ui).2) := by
  constructor
  · intro h
    rw [deleteSelectedItems_of_no_failure env o g h]
    exact ⟨rfl, removeSelected_ui env o g⟩
  · intro h
    rw [deleteSelectedItems_of_failure env o g h]
    simp [createErrorPanel, clearAllSelections, removeSelected_ui]

end Threading

end Lazydocker

/-! ## The batch deletion: statements -/

namespace Lazydocker

section BatchClaims

variable {U D : Type}

/-- C1, failure isolation.  For every selection, every behaviour of the
external calls and every order in which the keys are visited: each selected
identifier that resolves to an item is the subject of exactly one removal
call in the run of `deleteSelectedItems`, and the failure list `errors` holds,
in order, one line for each removal event that returned an error and nothing
else, so its length is the number of failed removals.  The calls are made on
`env`: the removal events are what the removal functions of `env` return when
the expected calls are handed to them one after the other, each on the Docker
state that the calls before it left, whether or not they failed; exactly one
of these calls is for the selected identifier; and the Docker state after the
body is the one the last call left. -/
theorem deleteSelectedItems_failure_isolation (env : Env U D) (o : RangeOrder) (g : Gui U D)
    (hv : o.Valid g.MultiSelect) :
    (∀ c id, id ∈ (g.MultiSelect.sel c).keys → resolves env g c id = true →
      ((deleteSelectedItems env o g).2.log.drop g.log.length).countP
        (fun e => decide (e.call.removedKey = some (c, id))) = 1) ∧
    (removeSelected env o g).1.log = g.log ++ removalEvents env o g ∧
    (removeSelected env o g).2 = (removalEvents env o g).filterMap failureLine ∧
    (∀ e ∈ removalEvents env o g, (failureLine e).isSome = e.err.isSome) ∧
    (removeSelected env o g).2.length =
      (removalEvents env o g).countP (fun e => e.err.isSome) ∧
    removalEvents env o g = (runCalls env (expectedCalls env o g) g.docker).1 ∧
    (deleteSelectedItems env o g).2.docker =
      (runCalls env (expectedCalls env o g) g.docker).2 ∧
    (∀ c id, id ∈ (g.MultiSelect.sel c).keys → resolves env g c id = true →
      (expectedCalls env o g).countP
        (fun x => decide (x.removedKey = some (c, id))) = 1) ∧
    (removeSelected env o g).2 =
      (runCalls env (expectedCalls env o g) g.docker).1.filterMap failureLine := by
  refine ⟨?_, removeSelected_log env o g, removeSelected_errors env o g, ?_, ?_,
    removalEvents_eq_runCalls env o g, deleteSelectedItems_docker env o g, ?_, ?_⟩
  · intro c id hsel hres
    obtain ⟨tail, hb, ht⟩ := batchEvents_eq env o g
    rw [hb, countP_append_tail _ _ _ _ ht]
    exact countP_removalEvents_of_selected env o g hv c id hsel hres
  · intro e he
    exact failureLine_isSome_of_rank (mem_removalEvents_rank env o g e he)
  · rw [removeSelected_errors, length_filterMap_eq_countP]
    apply List.countP_congr
    intro e he
    rw [failureLine_isSome_of_rank (mem_removalEvents_rank env o g e he)]
  · intro c id hsel hres
    rw [← countP_removalEvents]
    exact countP_removalEvents_of_selected env o g hv c id hsel hres
  · rw [removeSelected_errors, removalEvents_eq_runCalls]

/-- C1 on the instance: the containers `a`, `b`, `c` are selected and visited
in this order, and the removal of `B` fails. -/
theorem deleteSelectedItems_failure_isolation_witness :
    (RangeOrder.mk ["a", "b", "c"] [] [] []).Valid (demoGui ["a", "b", "c"] [] [] []).MultiSelect ∧
    (removeSelected (demoEnv "") ⟨["a", "b", "c"], [], [], []⟩
        (demoGui ["a", "b", "c"] [] [] [])).2.length =
      (removalEvents (demoEnv "") ⟨["a", "b", "c"], [], [], []⟩
        (demoGui ["a", "b", "c"] [] [] [])).countP (fun e => e.err.isSome) :=
  ⟨by decide,
    (deleteSelectedItems_failure_isolation (demoEnv "") ⟨["a", "b", "c"], [], [], []⟩
      (demoGui ["a", "b", "c"] [] [] []) (by decide)).2.2.2.2.1⟩

/-- A run of C1 on the second instance, evaluated.  The image can be removed
only because the removal of `A` took effect before, and `C` is removed
although the removal of `B` failed: the body returns the report, and Docker
has lost `A`, `C` and `I`. -/
theorem deleteSelectedItems_threads_docker :
    (deleteSelectedItems strictEnv ⟨["a", "b", "c"], ["i"], [], []⟩
        (strictGui ["a", "b", "c"] ["i"] [] [])).2.docker = ["A", "C", "I"] ∧
    (deleteSelectedItems strictEnv ⟨["a", "b", "c"], ["i"], [], []⟩
        (strictGui ["a", "b", "c"] ["i"] [] [])).1 = some "Container B: resource busy" ∧
    (removeSelected strictEnv ⟨["a", "b", "c"], ["i"], [], []⟩
        (strictGui ["a", "b", "c"] ["i"] [] [])).2 = ["Container B: resource busy"] := by
  decide

/-- The run of C1 on the instance, evaluated: three removal calls, one failure
line, for the second. -/
theorem deleteSelectedItems_three_containers :
    removalEvents (demoEnv "") ⟨["a", "b", "c"], [], [], []⟩ (demoGui ["a", "b", "c"] [] [] []) =
      [⟨Call.ContainerRemove ⟨"a", "A"⟩ { Force := true }, none⟩,
       ⟨Call.ContainerRemove ⟨"b", "B"⟩ { Force := true }, some "resource busy"⟩,
       ⟨Call.ContainerRemove ⟨"c", "C"⟩ { Force := true }, none⟩] ∧
    (removeSelected (demoEnv "") ⟨["a", "b", "c"], [], [], []⟩
        (demoGui ["a", "b", "c"] [] [] [])).2 = ["Container B: resource busy"] := by
  decide

/-- C2, post-batch clearing.  After the body of `deleteSelectedItems`, for
every prior selection, every behaviour of the external calls and every order
of visit, each of the four selection maps is the empty map, so
`hasAnySelections` is false and `getSelectionCount` is 0. -/
theorem deleteSelectedItems_clears_selection (env : Env U D) (o : RangeOrder) (g : Gui U D) :
    (∀ c, (deleteSelectedItems env o g).2.MultiSelect.sel c = GoMap.make ∧
      ((deleteSelectedItems env o g).2.MultiSelect.sel c).len = 0 ∧
      ∀ id, id ∉ (deleteSelectedItems env o g).2.MultiSelect.sel c) ∧
    hasAnySelections (deleteSelectedItems env o g).2 = false ∧
    getSelectionCount (deleteSelectedItems env o g).2 = 0 := by
  have hm : (deleteSelectedItems env o g).2.MultiSelect =
      { Containers := GoMap.make, Images := GoMap.make,
        Volumes := GoMap.make, Networks := GoMap.make } := by
    by_cases h : (removeSelected env o g).2 = []
    · rw [deleteSelectedItems_of_no_failure env o g h]; rfl
    · rw [deleteSelectedItems_of_failure env o g h]; rfl
  refine ⟨?_, ?_, ?_⟩
  · intro c
    rw [hm]
    cases c <;> simp [MultiSelectState.sel, GoMap.make, GoMap.len, Finmap.not_mem_empty]
  · simp [hasAnySelections, hm, GoMap.make, GoMap.len]
  · simp [getSelectionCount, hm, GoMap.make, GoMap.len]

/-- C3, deterministic category ordering.  In every run of
`deleteSelectedItems`, whatever the order in which the keys of each map are
visited, the events of the run are ordered by `Call.rank` (container removal
0, image removal 1, volume removal 2, network removal 3, anything else 4): a
call of lower rank comes before every call of higher rank.  The removal
events are four consecutive runs, of container, image, volume and network
removals, and `errors` is the failure lines of these runs, in this order.  A
selection map has no insertion order, so the order of selection cannot
matter. -/
theorem deleteSelectedItems_category_order (env : Env U D) (o : RangeOrder) (g : Gui U D) :
    (∀ (i j : Nat) (hi : i < ((deleteSelectedItems env o g).2.log.drop g.log.length).length)
        (hj : j < ((deleteSelectedItems env o g).2.log.drop g.log.length).length),
        (((deleteSelectedItems env o g).2.log.drop g.log.length).get ⟨i, hi⟩).call.rank <
          (((deleteSelectedItems env o g).2.log.drop g.log.length).get ⟨j, hj⟩).call.rank →
        i < j) ∧
    ∃ ec ei ev en : List Event,
      removalEvents env o g = ec ++ ei ++ ev ++ en ∧
      (∀ e ∈ ec, ∃ ctr opts, e.call = Call.ContainerRemove ctr opts) ∧
      (∀ e ∈ ei, ∃ img opts, e.call = Call.ImageRemove img opts) ∧
      (∀ e ∈ ev, ∃ vol force, e.call = Call.VolumeRemove vol force) ∧
      (∀ e ∈ en, ∃ net, e.call = Call.NetworkRemove net) ∧
      (removeSelected env o g).2 =
        ec.filterMap failureLine ++ ei.filterMap failureLine ++
          ev.filterMap failureLine ++ en.filterMap failureLine := by
  refine ⟨lt_of_rank_lt (batchEvents_pairwise env o g), ?_⟩
  obtain ⟨ec, ei, ev, en, hs, hc, hi, hv, hn⟩ := removalEvents_split env o g
  refine ⟨ec, ei, ev, en, hs, ?_, ?_, ?_, ?_, ?_⟩
  · intro e he
    obtain ⟨a, _, h⟩ := call_of_mem_map hc e he
    exact ⟨a, _, h⟩
  · intro e he
    obtain ⟨a, _, h⟩ := call_of_mem_map hi e he
    exact ⟨a, _, h⟩
  · intro e he
    obtain ⟨a, _, h⟩ := call_of_mem_map hv e he
    exact ⟨a, _, h⟩
  · intro e he
    obtain ⟨a, _, h⟩ := call_of_mem_map hn e he
    exact ⟨a, h⟩
  · rw [removeSelected_errors, hs, List.filterMap_append, List.filterMap_append,
      List.filterMap_append]

/-- A run of C3 on the instance, evaluated: the state is the same whichever
container was selected first, and the containers are removed first, then the
image, then the network, with the failure reported at the end. -/
theorem deleteSelectedItems_network_selected_first :
    demoGui ["b", "a"] ["i"] [] ["n"] = demoGui ["a", "b"] ["i"] [] ["n"] ∧
    (deleteSelectedItems (demoEnv "") ⟨["b", "a"], ["i"], [], ["n"]⟩
        (demoGui ["a", "b"] ["i"] [] ["n"])).2.log.map Event.call =
      [Call.ContainerRemove ⟨"b", "B"⟩ { Force := true },
       Call.ContainerRemove ⟨"a", "A"⟩ { Force := true },
       Call.ImageRemove ⟨"i", "I"⟩ { Force := true, PruneChildren := true },
       Call.NetworkRemove ⟨"n"⟩,
       Call.createErrorPanel "Container B: resource busy"] := by
  constructor
  · have h : selectKeys ["b", "a"] = selectKeys ["a", "b"] := by decide
    simp only [demoGui, h]
  · decide

/-- C4, silent skip of missing items.  An identifier that the lookup of its
category does not resolve is the subject of no removal call in the run of
`deleteSelectedItems`; `errors` holds failure lines of removal events only,
so there is none for it.  When no selected identifier resolves, the run makes
no removal call, `errors` is empty, no error panel is created and the body
returns `nil`, with nothing changed but the selection, which is cleared. -/
theorem deleteSelectedItems_skips_missing (env : Env U D) (o : RangeOrder) (g : Gui U D)
    (hv : o.Valid g.MultiSelect) :
    (∀ c id, resolves env g c id = false →
      ((deleteSelectedItems env o g).2.log.drop g.log.length).countP
        (fun e => decide (e.call.removedKey = some (c, id))) = 0) ∧
    (removeSelected env o g).2 = (removalEvents env o g).filterMap failureLine ∧
    ((∀ c, ∀ id ∈ (g.MultiSelect.sel c).keys, resolves env g c id = false) →
      removalEvents env o g = [] ∧ (removeSelected env o g).2 = [] ∧
        deleteSelectedItems env o g = (none, clearAllSelections g)) := by
  refine ⟨?_, removeSelected_errors env o g, ?_⟩
  · intro c id hres
    obtain ⟨tail, hb, ht⟩ := batchEvents_eq env o g
    rw [hb, countP_append_tail _ _ _ _ ht]
    exact countP_removalEvents_of_unresolved env o g c id hres
  · intro hall
    have h := removeSelected_of_unresolved env o g hv hall
    refine ⟨?_, by rw [h], ?_⟩
    · simp [removalEvents, h]
    · rw [deleteSelectedItems_of_no_failure env o g (by rw [h]), h]

/-- C4 on the instance: two selected containers and one selected volume that
no longer exist. -/
theorem deleteSelectedItems_skips_missing_witness :
    (RangeOrder.mk ["x", "y"] [] ["v"] []).Valid (demoGui ["x", "y"] [] ["v"] []).MultiSelect ∧
    (∀ c, ∀ id ∈ ((demoGui ["x", "y"] [] ["v"] []).MultiSelect.sel c).keys,
      resolves (demoEnv "") (demoGui ["x", "y"] [] ["v"] []) c id = false) ∧
    deleteSelectedItems (demoEnv "") ⟨["x", "y"], [], ["v"], []⟩ (demoGui ["x", "y"] [] ["v"] []) =
      (none, clearAllSelections (demoGui ["x", "y"] [] ["v"] [])) :=
  ⟨by decide, by decide,
    ((deleteSelectedItems_skips_missing (demoEnv "") ⟨["x", "y"], [], ["v"], []⟩
      (demoGui ["x", "y"] [] ["v"] []) (by decide)).2.2 (by decide)).2.2⟩

/-- C5 as stated fails: for the single selected container named `B`, whose
removal fails with `resource busy`, the text handed to `createErrorPanel` is
`Container B: resource busy`, not `B: resource busy`. -/
theorem deleteSelectedItems_report_counterexample :
    (deleteSelectedItems (demoEnv "") ⟨["b"], [], [], []⟩
        (demoGui ["b"] [] [] [])).2.log.map Event.call =
      [Call.ContainerRemove ⟨"b", "B"⟩ { Force := true },
       Call.createErrorPanel "Container B: resource busy"] ∧
    Call.createErrorPanel "B: resource busy" ∉
      (deleteSelectedItems (demoEnv "") ⟨["b"], [], [], []⟩
        (demoGui ["b"] [] [] [])).2.log.map Event.call := by
  decide

/-- C5, amended: the aggregated failure report.  `errors` holds one line for
each removal event that returned an error; the line is the category word
(`Container`, `Image`, `Volume` or `Network`), a blank, the name of the item,
`: ` and the text of the error.  When `errors` is empty the body returns
`nil` and logs no call after the removals, so no error panel is created.
Otherwise it calls `createErrorPanel` once, after the removals, with the lines
of `errors` joined by a newline, and returns what that call returns.  The
calls are made on `env`: the error texts in the lines are what the removal
functions of `env` returned, the body returns what `env.createErrorPanel`
returns on the joined lines and leaves the interface state that call leaves,
and without a failure the interface state is left alone. -/
theorem deleteSelectedItems_error_report (env : Env U D) (o : RangeOrder) (g : Gui U D) :
    (removeSelected env o g).2 = (removalEvents env o g).filterMap failureLine ∧
    (∀ e ∈ removalEvents env o g, ∀ line, failureLine e = some line →
      ∃ category name description,
        e.err = some description ∧
        line = category ++ " " ++ name ++ ": " ++ description ∧
        ((category = "Container" ∧ ∃ ctr opts, e.call = Call.ContainerRemove ctr opts ∧
            name = ctr.Name) ∨
          (category = "Image" ∧ ∃ img opts, e.call = Call.ImageRemove img opts ∧
            name = img.Name) ∨
          (category = "Volume" ∧ ∃ vol force, e.call = Call.VolumeRemove vol force ∧
            name = vol.Name) ∨
          (category = "Network" ∧ ∃ net, e.call = Call.NetworkRemove net ∧
            name = net.Name))) ∧
    ((removeSelected env o g).2 = [] →
      (deleteSelectedItems env o g).1 = none ∧
        (deleteSelectedItems env o g).2.log = g.log ++ removalEvents env o g) ∧
    ((removeSelected env o g).2 ≠ [] →
      (deleteSelectedItems env o g).2.log =
        g.log ++ removalEvents env o g ++
          [⟨Call.createErrorPanel (String.intercalate "\n" (removeSelected env o g).2),
            (deleteSelectedItems env o g).1⟩]) ∧
    (removeSelected env o g).2 =
      (runCalls env (expectedCalls env o g) g.docker).1.filterMap failureLine ∧
    ((removeSelected env o g).2 = [] →
      (deleteSelectedItems env o g).1 = none ∧ (deleteSelectedItems env o g).2.ui = g.ui) ∧
    ((removeSelected env o g).2 ≠ [] →
      (deleteSelectedItems env o g).1 =
          (env.createErrorPanel (String.intercalate "\n" (removeSelected env o g).2) g.ui).1 ∧
        (deleteSelectedItems env o g).2.ui =
          (env.createErrorPanel (String.intercalate "\n" (removeSelected env o g).2)
            g.ui).2) := by
  refine ⟨removeSelected_errors env o g, ?_, ?_, ?_,
    by rw [removeSelected_errors, removalEvents_eq_runCalls],
    (deleteSelectedItems_result env o g).1, (deleteSelectedItems_result env o g).2⟩
  · rintro ⟨call, err⟩ _ line hline
    cases call with
    | ContainerRemove ctr opts =>
      cases err with
      | none => simp [failureLine] at hline
      | some d =>
        simp only [failureLine, Option.some.injEq] at hline
        subst hline
        exact ⟨"Container", ctr.Name, d, rfl, rfl, Or.inl ⟨rfl, ctr, opts, rfl, rfl⟩⟩
    | ImageRemove img opts =>
      cases err with
      | none => simp [failureLine] at hline
      | some d =>
        simp only [failureLine, Option.some.injEq] at hline
        subst hline
        exact ⟨"Image", img.Name, d, rfl, rfl, Or.inr (Or.inl ⟨rfl, img, opts, rfl, rfl⟩)⟩
    | VolumeRemove vol force =>
      cases err with
      | none => simp [failureLine] at hline
      | some d =>
        simp only [failureLine, Option.some.injEq] at hline
        subst hline
        exact ⟨"Volume", vol.Name, d, rfl, rfl,
          Or.inr (Or.inr (Or.inl ⟨rfl, vol, force, rfl, rfl⟩))⟩
    | NetworkRemove net =>
      cases err with
      | none => simp [failureLine] at hline
      | some d =>
        simp only [failureLine, Option.some.injEq] at hline
        subst hline
        exact ⟨"Network", net.Name, d, rfl, rfl,
          Or.inr (Or.inr (Or.inr ⟨rfl, net, rfl, rfl⟩))⟩
    | SelectNextLine panel => simp [failureLine] at hline
    | RerenderList panel => simp [failureLine] at hline
    | createErrorPanel message => simp [failureLine] at hline
    | createConfirmationPanel title message => simp [failureLine] at hline
  · intro h
    rw [deleteSelectedItems_of_no_failure env o g h]
    exact ⟨rfl, by simp [clearAllSelections, removeSelected_log]⟩
  · intro h
    rw [deleteSelectedItems_of_failure env o g h]
    simp [createErrorPanel, clearAllSelections, removeSelected_log]

/-- The report on the second instance, evaluated: `createErrorPanel` receives
the two lines joined by a newline, and the body returns what it returns. -/
theorem deleteSelectedItems_error_report_example :
    (deleteSelectedItems strictEnv ⟨["b"], ["i"], [], []⟩
        (strictGui ["b"] ["i"] [] [])).1 =
      some "Container B: resource busy\nImage I: image in use" ∧
    (deleteSelectedItems strictEnv ⟨["a"], ["i"], [], []⟩
        (strictGui ["a"] ["i"] [] [])).1 = none := by
  decide

end BatchClaims

end Lazydocker

/-! ## The confirmation message -/

namespace Lazydocker

section Confirmation

variable {U D : Type}

theorem part_eq (n : Nat) (word : String) (tail : String) (h : " " ++ word ++ "(s)" = tail) :
    toString n ++ " " ++ word ++ "(s)" = toString n ++ tail := by
  rw [← h, String.append_assoc, String.append_assoc, String.append_assoc]

/-- C6 as stated fails: with exactly two containers selected, the message is
not the single line `2 container(s)`.  It starts with the text of
`Tr.ConfirmDeleteSelected` and an empty line, even when that text is empty. -/
theorem buildDeleteConfirmationMessage_counterexample :
    buildDeleteConfirmationMessage (demoEnv "") (demoGui ["a", "b"] [] [] []) =
      "\n\n2 container(s)" ∧
    buildDeleteConfirmationMessage (demoEnv "") (demoGui ["a", "b"] [] [] []) ≠
      "2 container(s)" ∧
    buildDeleteConfirmationMessage (demoEnv "Delete selected?") (demoGui ["a", "b"] [] [] []) =
      "Delete selected?\n\n2 container(s)" := by
  decide

/-- C6, amended: the confirmation message.  For every selection,
`buildDeleteConfirmationMessage` returns the text of
`Tr.ConfirmDeleteSelected`, an empty line, and then a single line with one
part `<n> <category>(s)` for each category whose count `n` is not zero, in the
order container, image, volume, network, joined by `, `.  With exactly two
containers selected and nothing else, that line is `2 container(s)`. -/
theorem buildDeleteConfirmationMessage_format (env : Env U D) (g : Gui U D) :
    buildDeleteConfirmationMessage env g =
      env.Tr.ConfirmDeleteSelected ++ "\n\n" ++ String.intercalate ", "
        (([(g.MultiSelect.Containers.len, "container"), (g.MultiSelect.Images.len, "image"),
            (g.MultiSelect.Volumes.len, "volume"), (g.MultiSelect.Networks.len, "network")].filter
            (fun p => decide (p.1 > 0))).map
          (fun p => toString p.1 ++ " " ++ p.2 ++ "(s)")) ∧
    (g.MultiSelect.Containers.len = 2 → g.MultiSelect.Images.len = 0 →
      g.MultiSelect.Volumes.len = 0 → g.MultiSelect.Networks.len = 0 →
      buildDeleteConfirmationMessage env g =
        env.Tr.ConfirmDeleteSelected ++ "\n\n" ++ "2 container(s)") := by
  constructor
  · unfold buildDeleteConfirmationMessage
    by_cases hc : g.MultiSelect.Containers.len > 0 <;>
      by_cases hi : g.MultiSelect.Images.len > 0 <;>
      by_cases hv : g.MultiSelect.Volumes.len > 0 <;>
      by_cases hn : g.MultiSelect.Networks.len > 0 <;>
      simp [hc, hi, hv, hn, List.filter, part_eq _ "container" " container(s)" rfl,
        part_eq _ "image" " image(s)" rfl, part_eq _ "volume" " volume(s)" rfl,
        part_eq _ "network" " network(s)" rfl]
  · intro hc hi hv hn
    simp [buildDeleteConfirmationMessage, hc, hi, hv, hn]
    rfl

end Confirmation

end Lazydocker

/-! ## Selection maps -/

namespace Lazydocker

theorem GoMap.get_of_mem {m : GoMap} (hT : m.AllTrue) {id : String} (h : id ∈ m) :
    m.get id = true := by
  have := hT id (Finmap.mem_keys.2 h)
  simp [GoMap.get, this]

theorem GoMap.get_of_not_mem {m : GoMap} {id : String} (h : id ∉ m) : m.get id = false := by
  simp [GoMap.get, Finmap.lookup_eq_none.2 h]

theorem GoMap.keys_set (m : GoMap) (k : String) (v : Bool) :
    (m.set k v).keys = insert k m.keys := by
  ext x
  simp [GoMap.set, Finmap.mem_keys, Finmap.mem_insert]

theorem GoMap.len_set_of_not_mem (m : GoMap) {k : String} (v : Bool) (h : k ∉ m) :
    (m.set k v).len = m.len + 1 := by
  rw [GoMap.len, GoMap.keys_set, Finset.card_insert_of_not_mem (by simpa [Finmap.mem_keys] using h)]
  rfl

theorem GoMap.len_delete_of_mem (m : GoMap) {k : String} (h : k ∈ m) :
    (m.delete k).len + 1 = m.len := by
  have hk : k ∈ m.keys := Finmap.mem_keys.2 h
  rw [GoMap.len, GoMap.delete, Finmap.keys_erase, Finset.card_erase_of_mem hk, GoMap.len]
  have : 0 < m.keys.card := Finset.card_pos.2 ⟨k, hk⟩
  omega

theorem toggleKey_of_mem {m : GoMap} (hT : m.AllTrue) {id : String} (h : id ∈ m) :
    toggleKey m id = m.delete id := by
  simp [toggleKey, GoMap.get_of_mem hT h]

theorem toggleKey_of_not_mem {m : GoMap} {id : String} (h : id ∉ m) :
    toggleKey m id = m.set id true := by
  simp [toggleKey, GoMap.get_of_not_mem h]

theorem lookup_toggleKey_ne (m : GoMap) {id k : String} (h : k ≠ id) :
    (toggleKey m id).lookup k = m.lookup k := by
  unfold toggleKey
  split
  · exact Finmap.lookup_erase_ne h
  · exact Finmap.lookup_insert_of_ne _ h

/-- Toggling a key twice gives the map back, when the map stores no `false`. -/
theorem toggleKey_toggleKey {m : GoMap} (hT : m.AllTrue) (id : String) :
    toggleKey (toggleKey m id) id = m := by
  by_cases h : id ∈ m
  · rw [toggleKey_of_mem hT h]
    have h2 : id ∉ m.delete id := Finmap.not_mem_erase_self
    rw [toggleKey_of_not_mem h2]
    apply Finmap.ext_lookup
    intro k
    by_cases hk : k = id
    · subst hk
      rw [GoMap.set, Finmap.lookup_insert, hT k (Finmap.mem_keys.2 h)]
    · rw [GoMap.set, Finmap.lookup_insert_of_ne _ hk, GoMap.delete, Finmap.lookup_erase_ne hk]
  · rw [toggleKey_of_not_mem h]
    have h2 : (m.set id true).get id = true := by
      simp [GoMap.get, GoMap.set, Finmap.lookup_insert]
    have h3 : toggleKey (m.set id true) id = (m.set id true).delete id := by
      simp [toggleKey, h2]
    rw [h3]
    apply Finmap.ext_lookup
    intro k
    by_cases hk : k = id
    · subst hk
      rw [GoMap.delete, Finmap.lookup_erase, Finmap.lookup_eq_none.2 h]
    · rw [GoMap.delete, Finmap.lookup_erase_ne hk, GoMap.set, Finmap.lookup_insert_of_ne _ hk]

/-- The lookups of a map after a run of `m[key a] = true` over `items`. -/
theorem lookup_foldl_set {α : Type} (key : α → String) (items : List α) :
    ∀ (m : GoMap) (k : String),
      (items.foldl (fun m a => GoMap.set m (key a) true) m).lookup k =
        if k ∈ items.map key then some true else m.lookup k := by
  induction items with
  | nil => intro m k; simp
  | cons a items ih =>
    intro m k
    rw [List.foldl_cons, ih]
    by_cases h1 : k ∈ items.map key
    · simp [h1]
    · by_cases h2 : k = key a
      · subst h2
        simp [GoMap.set, Finmap.lookup_insert]
      · have h3 : k ∉ (a :: items).map key := by
          simp only [List.map_cons, List.mem_cons, not_or]
          exact ⟨h2, h1⟩
        rw [if_neg h1, if_neg h3, GoMap.set, Finmap.lookup_insert_of_ne _ h2]

/-! ### Maps that store no `false` -/

theorem GoMap.allTrue_make : GoMap.make.AllTrue := by
  intro k hk
  simp [GoMap.make] at hk

theorem GoMap.allTrue_set {m : GoMap} (hT : m.AllTrue) (id : String) :
    (m.set id true).AllTrue := by
  intro k hk
  by_cases h : k = id
  · subst h
    simp [GoMap.set, Finmap.lookup_insert]
  · rw [GoMap.set, Finmap.lookup_insert_of_ne _ h]
    apply hT
    rw [GoMap.keys_set, Finset.mem_insert] at hk
    rcases hk with hk | hk
    · exact absurd hk h
    · exact hk

theorem GoMap.allTrue_delete {m : GoMap} (hT : m.AllTrue) (id : String) :
    (m.delete id).AllTrue := by
  intro k hk
  rw [GoMap.delete, Finmap.keys_erase, Finset.mem_erase] at hk
  rw [GoMap.delete, Finmap.lookup_erase_ne hk.1]
  exact hT k hk.2

theorem allTrue_toggleKey {m : GoMap} (hT : m.AllTrue) (id : String) :
    (toggleKey m id).AllTrue := by
  unfold toggleKey
  split
  · exact GoMap.allTrue_delete hT id
  · exact GoMap.allTrue_set hT id

theorem MultiSelectState.ext_sel {s t : MultiSelectState} (h : ∀ c, s.sel c = t.sel c) :
    s = t := by
  cases s; cases t
  have h1 := h Category.container
  have h2 := h Category.image
  have h3 := h Category.volume
  have h4 := h Category.network
  simp only [MultiSelectState.sel] at h1 h2 h3 h4
  simp [h1, h2, h3, h4]

section Handlers

variable {U D : Type}

/-- What a toggle handler does when its panel has a focused item. -/
theorem handleToggleSelection_of_focus (env : Env U D) (c : Category) (g : Gui U D)
    (id : String) (hf : focusedKey env g.ui c = Except.ok id) :
    (handleToggleSelection env c g).2.MultiSelect.sel c = toggleKey (g.MultiSelect.sel c) id ∧
    ∀ c2, c2 ≠ c →
      (handleToggleSelection env c g).2.MultiSelect.sel c2 = g.MultiSelect.sel c2 := by
  cases c
  · cases hs : env.Containers.GetSelectedItem g.ui with
    | error e => simp [focusedKey, hs, Except.map] at hf
    | ok item =>
      simp only [focusedKey, hs, Except.map, Except.ok.injEq] at hf
      subst hf
      refine ⟨by simp [handleToggleSelection, handleToggleContainerSelection, hs, rerenderList,
        selectNextLine, MultiSelectState.sel], ?_⟩
      intro c2 hc2
      cases c2 <;> simp_all [handleToggleSelection, handleToggleContainerSelection, rerenderList,
        selectNextLine, MultiSelectState.sel]
  · cases hs : env.Images.GetSelectedItem g.ui with
    | error e => simp [focusedKey, hs, Except.map] at hf
    | ok item =>
      simp only [focusedKey, hs, Except.map, Except.ok.injEq] at hf
      subst hf
      refine ⟨by simp [handleToggleSelection, handleToggleImageSelection, hs, rerenderList,
        selectNextLine, MultiSelectState.sel], ?_⟩
      intro c2 hc2
      cases c2 <;> simp_all [handleToggleSelection, handleToggleImageSelection, rerenderList,
        selectNextLine, MultiSelectState.sel]
  · cases hs : env.Volumes.GetSelectedItem g.ui with
    | error e => simp [focusedKey, hs, Except.map] at hf
    | ok item =>
      simp only [focusedKey, hs, Except.map, Except.ok.injEq] at hf
      subst hf
      refine ⟨by simp [handleToggleSelection, handleToggleVolumeSelection, hs, rerenderList,
        selectNextLine, MultiSelectState.sel], ?_⟩
      intro c2 hc2
      cases c2 <;> simp_all [handleToggleSelection, handleToggleVolumeSelection, rerenderList,
        selectNextLine, MultiSelectState.sel]
  · cases hs : env.Networks.GetSelectedItem g.ui with
    | error e => simp [focusedKey, hs, Except.map] at hf
    | ok item =>
      simp only [focusedKey, hs, Except.map, Except.ok.injEq] at hf
      subst hf
      refine ⟨by simp [handleToggleSelection, handleToggleNetworkSelection, hs, rerenderList,
        selectNextLine, MultiSelectState.sel], ?_⟩
      intro c2 hc2
      cases c2 <;> simp_all [handleToggleSelection, handleToggleNetworkSelection, rerenderList,
        selectNextLine, MultiSelectState.sel]

/-- What a select-all handler does to the selection. -/
theorem handleSelectAll_sel (env : Env U D) (c : Category) (g : Gui U D) :
    (handleSelectAll env c g).2.MultiSelect.sel c =
      (visibleKeys env g.ui c).foldl (fun m k => GoMap.set m k true) (g.MultiSelect.sel c) ∧
    ∀ c2, c2 ≠ c → (handleSelectAll env c g).2.MultiSelect.sel c2 = g.MultiSelect.sel c2 := by
  cases c
  · refine ⟨by simp [handleSelectAll, handleSelectAllContainers, rerenderList, visibleKeys,
      MultiSelectState.sel, List.foldl_map], ?_⟩
    intro c2 hc2
    cases c2 <;> simp_all [handleSelectAll, handleSelectAllContainers, rerenderList,
      MultiSelectState.sel]
  · refine ⟨by simp [handleSelectAll, handleSelectAllImages, rerenderList, visibleKeys,
      MultiSelectState.sel, List.foldl_map], ?_⟩
    intro c2 hc2
    cases c2 <;> simp_all [handleSelectAll, handleSelectAllImages, rerenderList,
      MultiSelectState.sel]
  · refine ⟨by simp [handleSelectAll, handleSelectAllVolumes, rerenderList, visibleKeys,
      MultiSelectState.sel, List.foldl_map], ?_⟩
    intro c2 hc2
    cases c2 <;> simp_all [handleSelectAll, handleSelectAllVolumes, rerenderList,
      MultiSelectState.sel]
  · refine ⟨by simp [handleSelectAll, handleSelectAllNetworks, rerenderList, visibleKeys,
      MultiSelectState.sel, List.foldl_map], ?_⟩
    intro c2 hc2
    cases c2 <;> simp_all [handleSelectAll, handleSelectAllNetworks, rerenderList,
      MultiSelectState.sel]

end Handlers

end Lazydocker

/-! ## The selection handlers: statements -/

namespace Lazydocker

section HandlerClaims

variable {U D : Type}

/-- C7, toggle involution.  For every category `c`, identifier `id` and state
whose map for `c` stores no `false`: the toggle step applied twice to `id`
gives the map back, and when the panel reports the item `id` as focused at
both calls, two calls of the toggle handler of `c` leave the whole selection
as it was, so the membership of `id` and the size of the set are the same as
before. -/
theorem handleToggleSelection_involution (env : Env U D) (c : Category) (g : Gui U D)
    (id : String) (hT : (g.MultiSelect.sel c).AllTrue)
    (h1 : focusedKey env g.ui c = Except.ok id)
    (h2 : focusedKey env (handleToggleSelection env c g).2.ui c = Except.ok id) :
    toggleKey (toggleKey (g.MultiSelect.sel c) id) id = g.MultiSelect.sel c ∧
    (handleToggleSelection env c (handleToggleSelection env c g).2).2.MultiSelect =
      g.MultiSelect ∧
    ((handleToggleSelection env c (handleToggleSelection env c g).2).2.MultiSelect.sel c).get id =
      (g.MultiSelect.sel c).get id ∧
    ((handleToggleSelection env c (handleToggleSelection env c g).2).2.MultiSelect.sel c).len =
      (g.MultiSelect.sel c).len := by
  have hs : (handleToggleSelection env c (handleToggleSelection env c g).2).2.MultiSelect =
      g.MultiSelect := by
    apply MultiSelectState.ext_sel
    intro c2
    obtain ⟨a1, b1⟩ := handleToggleSelection_of_focus env c g id h1
    obtain ⟨a2, b2⟩ :=
      handleToggleSelection_of_focus env c (handleToggleSelection env c g).2 id h2
    by_cases hc : c2 = c
    · subst hc
      rw [a2, a1, toggleKey_toggleKey hT]
    · rw [b2 c2 hc, b1 c2 hc]
  exact ⟨toggleKey_toggleKey hT id, hs, by rw [hs], by rw [hs]⟩

/-- C7 on the instance: the container `a` is selected and stays focused. -/
theorem handleToggleSelection_involution_witness :
    ((demoGui ["a", "b"] [] [] []).MultiSelect.sel Category.container).AllTrue ∧
    (handleToggleSelection (demoEnv "") Category.container
        (handleToggleSelection (demoEnv "") Category.container
          (demoGui ["a", "b"] [] [] [])).2).2.MultiSelect =
      (demoGui ["a", "b"] [] [] []).MultiSelect :=
  ⟨by decide,
    (handleToggleSelection_involution (demoEnv "") Category.container
      (demoGui ["a", "b"] [] [] []) "a" (by decide) rfl rfl).2.1⟩

/-- C8, toggle postcondition and frame.  When the panel of `c` has a focused
item with identifier `id` and the map of `c` stores no `false`, the toggle
handler of `c` removes `id` from the map if it was a key, and the size goes
down by one; otherwise it stores `id` with `true`, and the size goes up by
one.  The lookups of every other identifier in the map of `c`, and the maps
of the other three categories, are unchanged. -/
theorem handleToggleSelection_post (env : Env U D) (c : Category) (g : Gui U D)
    (id : String) (hT : (g.MultiSelect.sel c).AllTrue)
    (hf : focusedKey env g.ui c = Except.ok id) :
    (id ∈ g.MultiSelect.sel c →
      id ∉ (handleToggleSelection env c g).2.MultiSelect.sel c ∧
        ((handleToggleSelection env c g).2.MultiSelect.sel c).len + 1 =
          (g.MultiSelect.sel c).len) ∧
    (id ∉ g.MultiSelect.sel c →
      id ∈ (handleToggleSelection env c g).2.MultiSelect.sel c ∧
        ((handleToggleSelection env c g).2.MultiSelect.sel c).get id = true ∧
        ((handleToggleSelection env c g).2.MultiSelect.sel c).len =
          (g.MultiSelect.sel c).len + 1) ∧
    (∀ k, k ≠ id →
      ((handleToggleSelection env c g).2.MultiSelect.sel c).lookup k =
        (g.MultiSelect.sel c).lookup k) ∧
    (∀ c2, c2 ≠ c →
      (handleToggleSelection env c g).2.MultiSelect.sel c2 = g.MultiSelect.sel c2) := by
  obtain ⟨a1, b1⟩ := handleToggleSelection_of_focus env c g id hf
  refine ⟨?_, ?_, ?_, b1⟩
  · intro h
    rw [a1, toggleKey_of_mem hT h]
    exact ⟨Finmap.not_mem_erase_self, GoMap.len_delete_of_mem _ h⟩
  · intro h
    rw [a1, toggleKey_of_not_mem h]
    refine ⟨?_, ?_, GoMap.len_set_of_not_mem _ _ h⟩
    · simp [GoMap.set, Finmap.mem_insert]
    · simp [GoMap.get, GoMap.set, Finmap.lookup_insert]
  · intro k hk
    rw [a1, lookup_toggleKey_ne _ hk]

/-- C8 on the instance: the focused container `a` is selected, `b` too. -/
theorem handleToggleSelection_post_witness :
    ((demoGui ["a", "b"] [] [] []).MultiSelect.sel Category.container).AllTrue ∧
    focusedKey (demoEnv "") (demoGui ["a", "b"] [] [] []).ui Category.container =
      Except.ok "a" ∧
    ∀ c2, c2 ≠ Category.container →
      (handleToggleSelection (demoEnv "") Category.container
          (demoGui ["a", "b"] [] [] [])).2.MultiSelect.sel c2 =
        (demoGui ["a", "b"] [] [] []).MultiSelect.sel c2 :=
  ⟨by decide, rfl,
    (handleToggleSelection_post (demoEnv "") Category.container
      (demoGui ["a", "b"] [] [] []) "a" (by decide) rfl).2.2.2⟩

/-- A toggle on the instance, evaluated: `a` leaves the selection, `b` stays,
the cursor is advanced and the list is rendered again. -/
theorem handleToggleSelection_example :
    (handleToggleSelection (demoEnv "") Category.container
        (demoGui ["a", "b"] [] [] [])).2.MultiSelect =
      (demoGui ["b"] [] [] []).MultiSelect ∧
    (handleToggleSelection (demoEnv "") Category.container
        (demoGui ["a", "b"] [] [] [])).2.log =
      [⟨Call.SelectNextLine Category.container, none⟩,
       ⟨Call.RerenderList Category.container, none⟩] := by
  decide

/-- C9, toggle with no focused item.  When `GetSelectedItem` of the panel of
`c` returns an error, the toggle handler of `c` returns `nil` and leaves the
whole state as it was: the four selection maps, the user interface state, and
the log, to which no `SelectNextLine` and no `RerenderList` call is added. -/
theorem handleToggleSelection_no_focus (env : Env U D) (c : Category) (g : Gui U D)
    (msg : String) (hf : focusedKey env g.ui c = Except.error msg) :
    handleToggleSelection env c g = (none, g) ∧
    (handleToggleSelection env c g).2.MultiSelect = g.MultiSelect ∧
    (handleToggleSelection env c g).2.ui = g.ui ∧
    (handleToggleSelection env c g).2.log = g.log := by
  have h : handleToggleSelection env c g = (none, g) := by
    cases c
    · cases hs : env.Containers.GetSelectedItem g.ui with
      | ok item => simp [focusedKey, hs, Except.map] at hf
      | error e => simp [handleToggleSelection, handleToggleContainerSelection, hs]
    · cases hs : env.Images.GetSelectedItem g.ui with
      | ok item => simp [focusedKey, hs, Except.map] at hf
      | error e => simp [handleToggleSelection, handleToggleImageSelection, hs]
    · cases hs : env.Volumes.GetSelectedItem g.ui with
      | ok item => simp [focusedKey, hs, Except.map] at hf
      | error e => simp [handleToggleSelection, handleToggleVolumeSelection, hs]
    · cases hs : env.Networks.GetSelectedItem g.ui with
      | ok item => simp [focusedKey, hs, Except.map] at hf
      | error e => simp [handleToggleSelection, handleToggleNetworkSelection, hs]
  exact ⟨h, by rw [h], by rw [h], by rw [h]⟩

/-- C9 on the instance: the volume panel has no focused item. -/
theorem handleToggleSelection_no_focus_witness :
    focusedKey (demoEnv "") (demoGui ["a"] [] ["v"] []).ui Category.volume =
      Except.error "no items" ∧
    handleToggleSelection (demoEnv "") Category.volume (demoGui ["a"] [] ["v"] []) =
      (none, demoGui ["a"] [] ["v"] []) :=
  ⟨rfl,
    (handleToggleSelection_no_focus (demoEnv "") Category.volume
      (demoGui ["a"] [] ["v"] []) "no items" rfl).1⟩

/-- C10, select all visible.  For every category `c` and every prior state,
after the select-all handler of `c` the keys of the map of `c` are the prior
keys together with the identifiers of the items that `List.GetItems()`
returns; each of these identifiers is stored with `true`, and the lookup of
every other identifier is as before.  So an identifier that is neither
visible nor selected before is not selected after, an identifier selected
before is selected after, and the maps of the other three categories are
unchanged. -/
theorem handleSelectAll_post (env : Env U D) (c : Category) (g : Gui U D) :
    ((handleSelectAll env c g).2.MultiSelect.sel c).keys =
      (g.MultiSelect.sel c).keys ∪ (visibleKeys env g.ui c).toFinset ∧
    (∀ k ∈ visibleKeys env g.ui c,
      ((handleSelectAll env c g).2.MultiSelect.sel c).lookup k = some true) ∧
    (∀ k, k ∉ visibleKeys env g.ui c →
      ((handleSelectAll env c g).2.MultiSelect.sel c).lookup k =
        (g.MultiSelect.sel c).lookup k) ∧
    (∀ k, k ∉ g.MultiSelect.sel c → k ∉ visibleKeys env g.ui c →
      k ∉ (handleSelectAll env c g).2.MultiSelect.sel c) ∧
    (∀ k, (g.MultiSelect.sel c).get k = true →
      ((handleSelectAll env c g).2.MultiSelect.sel c).get k = true) ∧
    (∀ c2, c2 ≠ c → (handleSelectAll env c g).2.MultiSelect.sel c2 = g.MultiSelect.sel c2) := by
  obtain ⟨a1, b1⟩ := handleSelectAll_sel env c g
  have hl : ∀ k, ((handleSelectAll env c g).2.MultiSelect.sel c).lookup k =
      if k ∈ visibleKeys env g.ui c then some true else (g.MultiSelect.sel c).lookup k := by
    intro k
    rw [a1]
    have := lookup_foldl_set (fun k : String => k) (visibleKeys env g.ui c)
      (g.MultiSelect.sel c) k
    simpa using this
  refine ⟨?_, ?_, ?_, ?_, ?_, b1⟩
  · ext k
    rw [Finmap.mem_keys, Finset.mem_union, Finmap.mem_keys, List.mem_toFinset,
      ← Finmap.lookup_isSome, ← Finmap.lookup_isSome, hl]
    by_cases hk : k ∈ visibleKeys env g.ui c <;> simp [hk]
  · intro k hk
    rw [hl, if_pos hk]
  · intro k hk
    rw [hl, if_neg hk]
  · intro k hk hv
    rw [← Finmap.lookup_eq_none, hl, if_neg hv]
    exact Finmap.lookup_eq_none.2 hk
  · intro k hk
    unfold GoMap.get at hk ⊢
    rw [hl]
    by_cases hv : k ∈ visibleKeys env g.ui c
    · simp [hv]
    · rw [if_neg hv]; exact hk

/-- Select all on the instance, evaluated: the container `c` exists and is
not shown, and is not selected; `x`, selected before, stays selected. -/
theorem handleSelectAll_example :
    (handleSelectAll (demoEnv "") Category.container
        (demoGui ["x"] ["i"] [] [])).2.MultiSelect =
      (demoGui ["x", "a", "b"] ["i"] [] []).MultiSelect ∧
    "c" ∉ (handleSelectAll (demoEnv "") Category.container
        (demoGui ["x"] ["i"] [] [])).2.MultiSelect.Containers := by
  decide

end HandlerClaims

end Lazydocker

/-! ## Select all twice, deselect all, counts -/

namespace Lazydocker

section SelectionLemmas

variable {U D : Type}

/-- Storing `true` under the keys `ks` a second time changes nothing. -/
theorem foldl_set_foldl_set (ks : List String) (m : GoMap) :
    ks.foldl (fun m k => GoMap.set m k true) (ks.foldl (fun m k => GoMap.set m k true) m) =
      ks.foldl (fun m k => GoMap.set m k true) m := by
  apply Finmap.ext_lookup
  intro k
  have h := lookup_foldl_set (fun k : String => k) ks
  simp only [List.map_id_fun, id_eq] at h
  rw [h, h]
  by_cases hk : k ∈ ks <;> simp [hk]

/-- What a deselect-all handler does to the selection. -/
theorem handleDeselectAll_sel (env : Env U D) (c : Category) (g : Gui U D) :
    (handleDeselectAll env c g).2.MultiSelect.sel c = GoMap.make ∧
    ∀ c2, c2 ≠ c → (handleDeselectAll env c g).2.MultiSelect.sel c2 = g.MultiSelect.sel c2 := by
  cases c
  · refine ⟨by simp [handleDeselectAll, handleDeselectAllContainers, rerenderList,
      MultiSelectState.sel], ?_⟩
    intro c2 hc2
    cases c2 <;> simp_all [handleDeselectAll, handleDeselectAllContainers, rerenderList,
      MultiSelectState.sel]
  · refine ⟨by simp [handleDeselectAll, handleDeselectAllImages, rerenderList,
      MultiSelectState.sel], ?_⟩
    intro c2 hc2
    cases c2 <;> simp_all [handleDeselectAll, handleDeselectAllImages, rerenderList,
      MultiSelectState.sel]
  · refine ⟨by simp [handleDeselectAll, handleDeselectAllVolumes, rerenderList,
      MultiSelectState.sel], ?_⟩
    intro c2 hc2
    cases c2 <;> simp_all [handleDeselectAll, handleDeselectAllVolumes, rerenderList,
      MultiSelectState.sel]
  · refine ⟨by simp [handleDeselectAll, handleDeselectAllNetworks, rerenderList,
      MultiSelectState.sel], ?_⟩
    intro c2 hc2
    cases c2 <;> simp_all [handleDeselectAll, handleDeselectAllNetworks, rerenderList,
      MultiSelectState.sel]

theorem getSelectionCount_eq_sel (g : Gui U D) :
    getSelectionCount g =
      (g.MultiSelect.sel Category.container).len + (g.MultiSelect.sel Category.image).len +
        (g.MultiSelect.sel Category.volume).len + (g.MultiSelect.sel Category.network).len :=
  rfl

end SelectionLemmas

section SelectionClaims

variable {U D : Type}

/-- C11, select-all idempotence.  For every category `c` and every prior
state, when the panel reports the same visible items at the second call as at
the first, running the select-all handler of `c` twice gives the same
selection as running it once: the same four maps, hence the same sizes and
the same total count. -/
theorem handleSelectAll_idempotent (env : Env U D) (c : Category) (g : Gui U D)
    (hfix : visibleKeys env (handleSelectAll env c g).2.ui c = visibleKeys env g.ui c) :
    (handleSelectAll env c (handleSelectAll env c g).2).2.MultiSelect =
      (handleSelectAll env c g).2.MultiSelect ∧
    (∀ c2, ((handleSelectAll env c (handleSelectAll env c g).2).2.MultiSelect.sel c2).len =
      ((handleSelectAll env c g).2.MultiSelect.sel c2).len) ∧
    getSelectionCount (handleSelectAll env c (handleSelectAll env c g).2).2 =
      getSelectionCount (handleSelectAll env c g).2 := by
  have hs : (handleSelectAll env c (handleSelectAll env c g).2).2.MultiSelect =
      (handleSelectAll env c g).2.MultiSelect := by
    apply MultiSelectState.ext_sel
    intro c2
    obtain ⟨a1, _⟩ := handleSelectAll_sel env c g
    obtain ⟨a2, b2⟩ := handleSelectAll_sel env c (handleSelectAll env c g).2
    by_cases hc : c2 = c
    · subst hc
      rw [a2, hfix, a1, foldl_set_foldl_set]
    · exact b2 c2 hc
  refine ⟨hs, fun c2 => by rw [hs], ?_⟩
  rw [getSelectionCount_eq_sel, getSelectionCount_eq_sel, hs]

/-- C11 on the instance: one container selected before, two containers
visible. -/
theorem handleSelectAll_idempotent_witness :
    visibleKeys (demoEnv "")
        (handleSelectAll (demoEnv "") Category.container (demoGui ["x"] [] [] [])).2.ui
        Category.container =
      visibleKeys (demoEnv "") (demoGui ["x"] [] [] []).ui Category.container ∧
    (handleSelectAll (demoEnv "") Category.container
        (handleSelectAll (demoEnv "") Category.container
          (demoGui ["x"] [] [] [])).2).2.MultiSelect =
      (handleSelectAll (demoEnv "") Category.container (demoGui ["x"] [] [] [])).2.MultiSelect :=
  ⟨rfl,
    (handleSelectAll_idempotent (demoEnv "") Category.container
      (demoGui ["x"] [] [] []) rfl).1⟩

/-- C12, deselect all.  For every category `c` and every prior state, after
the deselect-all handler of `c` the map of `c` is the empty map: its size is 0
and no identifier is a key.  The maps of the other three categories are
unchanged, and a second run of the handler leaves the selection as the first
run left it. -/
theorem handleDeselectAll_post (env : Env U D) (c : Category) (g : Gui U D) :
    (handleDeselectAll env c g).2.MultiSelect.sel c = GoMap.make ∧
    ((handleDeselectAll env c g).2.MultiSelect.sel c).len = 0 ∧
    (∀ id, id ∉ (handleDeselectAll env c g).2.MultiSelect.sel c ∧
      ((handleDeselectAll env c g).2.MultiSelect.sel c).get id = false) ∧
    (∀ c2, c2 ≠ c → (handleDeselectAll env c g).2.MultiSelect.sel c2 = g.MultiSelect.sel c2) ∧
    (handleDeselectAll env c (handleDeselectAll env c g).2).2.MultiSelect =
      (handleDeselectAll env c g).2.MultiSelect := by
  obtain ⟨a1, b1⟩ := handleDeselectAll_sel env c g
  obtain ⟨a2, b2⟩ := handleDeselectAll_sel env c (handleDeselectAll env c g).2
  refine ⟨a1, by rw [a1]; rfl, ?_, b1, ?_⟩
  · intro id
    rw [a1]
    exact ⟨Finmap.not_mem_empty, GoMap.get_of_not_mem Finmap.not_mem_empty⟩
  · apply MultiSelectState.ext_sel
    intro c2
    by_cases hc : c2 = c
    · subst hc
      rw [a2, a1]
    · exact b2 c2 hc

/-- Deselect all on the instance, evaluated: the containers are deselected,
the image stays selected, and the list is rendered again. -/
theorem handleDeselectAll_example :
    (handleDeselectAll (demoEnv "") Category.container
        (demoGui ["a", "b"] ["i"] [] [])).2.MultiSelect =
      (demoGui [] ["i"] [] []).MultiSelect ∧
    (handleDeselectAll (demoEnv "") Category.container
        (demoGui ["a", "b"] ["i"] [] [])).2.log =
      [⟨Call.RerenderList Category.container, none⟩] := by
  decide

/-- C13, count consistency.  In every state `getSelectionCount` is the sum
over the four categories of the size of the selection map, which is the
number of its keys; it is also the sum of the counts that the confirmation
message reports, those that are not zero; and `hasAnySelections` is true
exactly when `getSelectionCount` is positive. -/
theorem getSelectionCount_consistent (g : Gui U D) :
    getSelectionCount g = ∑ c : Category, (g.MultiSelect.sel c).keys.card ∧
    getSelectionCount g =
      (((categoryCounts g).filter (fun p => decide (p.1 > 0))).map Prod.fst).sum ∧
    (hasAnySelections g = true ↔ getSelectionCount g > 0) := by
  refine ⟨?_, ?_, ?_⟩
  · have hu : (Finset.univ : Finset Category) =
        {Category.container, Category.image, Category.volume, Category.network} := by
      decide
    rw [hu]
    simp [getSelectionCount, GoMap.len, MultiSelectState.sel, Nat.add_assoc]
  · simp only [categoryCounts, getSelectionCount]
    by_cases hc : g.MultiSelect.Containers.len > 0 <;>
      by_cases hi : g.MultiSelect.Images.len > 0 <;>
      by_cases hv : g.MultiSelect.Volumes.len > 0 <;>
      by_cases hn : g.MultiSelect.Networks.len > 0 <;>
      simp [hc, hi, hv, hn, List.filter] <;> omega
  · simp only [hasAnySelections, getSelectionCount, Bool.or_eq_true, decide_eq_true_eq]
    omega

end SelectionClaims

end Lazydocker

/-! ## Delete selected, re-rendering, removal options -/

namespace Lazydocker

section PromptLemmas

variable {U D : Type}

theorem handleDeleteSelected_of_zero (env : Env U D) (g : Gui U D)
    (h : getSelectionCount g = 0) : handleDeleteSelected env g = (none, g) := by
  simp [handleDeleteSelected, h]

theorem handleDeleteSelected_of_pos (env : Env U D) (g : Gui U D)
    (h : getSelectionCount g ≠ 0) :
    handleDeleteSelected env g =
      ((env.createConfirmationPanel env.Tr.Confirm (buildDeleteConfirmationMessage env g)
          g.ui).1,
        { g with
          ui := (env.createConfirmationPanel env.Tr.Confirm
            (buildDeleteConfirmationMessage env g) g.ui).2,
          log := g.log ++ [⟨Call.createConfirmationPanel env.Tr.Confirm
            (buildDeleteConfirmationMessage env g),
            (env.createConfirmationPanel env.Tr.Confirm (buildDeleteConfirmationMessage env g)
              g.ui).1⟩] }) := by
  simp [handleDeleteSelected, h]

/-- The message in terms of the counts of the four categories. -/
theorem buildDeleteConfirmationMessage_eq_counts (env : Env U D) (g : Gui U D) :
    buildDeleteConfirmationMessage env g =
      env.Tr.ConfirmDeleteSelected ++ "\n\n" ++ String.intercalate ", "
        (((categoryCounts g).filter (fun p => decide (p.1 > 0))).map
          (fun p => toString p.1 ++ " " ++ p.2 ++ "(s)")) := by
  unfold buildDeleteConfirmationMessage categoryCounts
  by_cases hc : g.MultiSelect.Containers.len > 0 <;>
    by_cases hi : g.MultiSelect.Images.len > 0 <;>
    by_cases hv : g.MultiSelect.Volumes.len > 0 <;>
    by_cases hn : g.MultiSelect.Networks.len > 0 <;>
    simp [hc, hi, hv, hn, List.filter, part_eq _ "container" " container(s)" rfl,
      part_eq _ "image" " image(s)" rfl, part_eq _ "volume" " volume(s)" rfl,
      part_eq _ "network" " network(s)" rfl]

theorem categoryCounts_filter_ne_nil (g : Gui U D) (h : getSelectionCount g ≠ 0) :
    (categoryCounts g).filter (fun p => decide (p.1 > 0)) ≠ [] := by
  intro hnil
  have hall := List.filter_eq_nil_iff.1 hnil
  simp only [categoryCounts, List.mem_cons, List.mem_singleton, decide_eq_true_eq] at hall
  have h1 := hall (g.MultiSelect.Containers.len, "container") (by simp)
  have h2 := hall (g.MultiSelect.Images.len, "image") (by simp)
  have h3 := hall (g.MultiSelect.Volumes.len, "volume") (by simp)
  have h4 := hall (g.MultiSelect.Networks.len, "network") (by simp)
  simp only [List.mem_nil_iff, or_false] at h1 h2 h3 h4
  apply h
  simp only [getSelectionCount]
  omega

theorem handleToggleSelection_of_no_focus (env : Env U D) (c : Category) (g : Gui U D)
    (msg : String) (hf : focusedKey env g.ui c = Except.error msg) :
    handleToggleSelection env c g = (none, g) := by
  cases c
  · cases hs : env.Containers.GetSelectedItem g.ui with
    | ok item => simp [focusedKey, hs, Except.map] at hf
    | error e => simp [handleToggleSelection, handleToggleContainerSelection, hs]
  · cases hs : env.Images.GetSelectedItem g.ui with
    | ok item => simp [focusedKey, hs, Except.map] at hf
    | error e => simp [handleToggleSelection, handleToggleImageSelection, hs]
  · cases hs : env.Volumes.GetSelectedItem g.ui with
    | ok item => simp [focusedKey, hs, Except.map] at hf
    | error e => simp [handleToggleSelection, handleToggleVolumeSelection, hs]
  · cases hs : env.Networks.GetSelectedItem g.ui with
    | ok item => simp [focusedKey, hs, Except.map] at hf
    | error e => simp [handleToggleSelection, handleToggleNetworkSelection, hs]

/-- With a focused item, a toggle handler returns what `RerenderList` returns
on the state that `SelectNextLine` leaves. -/
theorem handleToggleSelection_result (env : Env U D) (c : Category) (g : Gui U D)
    (id : String) (hf : focusedKey env g.ui c = Except.ok id) :
    (handleToggleSelection env c g).1 = (rerenderOf env c (selectNextOf env c g.ui)).1 := by
  cases c
  · cases hs : env.Containers.GetSelectedItem g.ui with
    | error e => simp [focusedKey, hs, Except.map] at hf
    | ok item =>
      simp [handleToggleSelection, handleToggleContainerSelection, hs, rerenderList,
        selectNextLine, rerenderOf, selectNextOf]
  · cases hs : env.Images.GetSelectedItem g.ui with
    | error e => simp [focusedKey, hs, Except.map] at hf
    | ok item =>
      simp [handleToggleSelection, handleToggleImageSelection, hs, rerenderList,
        selectNextLine, rerenderOf, selectNextOf]
  · cases hs : env.Volumes.GetSelectedItem g.ui with
    | error e => simp [focusedKey, hs, Except.map] at hf
    | ok item =>
      simp [handleToggleSelection, handleToggleVolumeSelection, hs, rerenderList,
        selectNextLine, rerenderOf, selectNextOf]
  · cases hs : env.Networks.GetSelectedItem g.ui with
    | error e => simp [focusedKey, hs, Except.map] at hf
    | ok item =>
      simp [handleToggleSelection, handleToggleNetworkSelection, hs, rerenderList,
        selectNextLine, rerenderOf, selectNextOf]

theorem handleSelectAll_result (env : Env U D) (c : Category) (g : Gui U D) :
    (handleSelectAll env c g).1 = (rerenderOf env c g.ui).1 := by
  cases c <;> rfl

theorem handleDeselectAll_result (env : Env U D) (c : Category) (g : Gui U D) :
    (handleDeselectAll env c g).1 = (rerenderOf env c g.ui).1 := by
  cases c <;> rfl

/-- The selection after a toggle handler depends on the prior selection and
on the focused identifier only. -/
theorem handleToggleSelection_congr (env1 env2 : Env U D) (c : Category) (g1 g2 : Gui U D)
    (hs : g1.MultiSelect = g2.MultiSelect)
    (hf : focusedKey env1 g1.ui c = focusedKey env2 g2.ui c) :
    (handleToggleSelection env1 c g1).2.MultiSelect =
      (handleToggleSelection env2 c g2).2.MultiSelect := by
  cases h1 : focusedKey env1 g1.ui c with
  | error msg =>
    rw [handleToggleSelection_of_no_focus env1 c g1 msg h1,
      handleToggleSelection_of_no_focus env2 c g2 msg (by rw [← hf, h1])]
    exact hs
  | ok id =>
    obtain ⟨a1, b1⟩ := handleToggleSelection_of_focus env1 c g1 id h1
    obtain ⟨a2, b2⟩ := handleToggleSelection_of_focus env2 c g2 id (by rw [← hf, h1])
    apply MultiSelectState.ext_sel
    intro c2
    by_cases hc : c2 = c
    · subst hc
      rw [a1, a2, hs]
    · rw [b1 c2 hc, b2 c2 hc, hs]

/-- The selection after a select-all handler depends on the prior selection
and on the visible identifiers only. -/
theorem handleSelectAll_congr (env1 env2 : Env U D) (c : Category) (g1 g2 : Gui U D)
    (hs : g1.MultiSelect = g2.MultiSelect)
    (hv : visibleKeys env1 g1.ui c = visibleKeys env2 g2.ui c) :
    (handleSelectAll env1 c g1).2.MultiSelect = (handleSelectAll env2 c g2).2.MultiSelect := by
  obtain ⟨a1, b1⟩ := handleSelectAll_sel env1 c g1
  obtain ⟨a2, b2⟩ := handleSelectAll_sel env2 c g2
  apply MultiSelectState.ext_sel
  intro c2
  by_cases hc : c2 = c
  · subst hc
    rw [a1, a2, hs, hv]
  · rw [b1 c2 hc, b2 c2 hc, hs]

/-- The selection after a deselect-all handler depends on the prior selection
only. -/
theorem handleDeselectAll_congr (env1 env2 : Env U D) (c : Category) (g1 g2 : Gui U D)
    (hs : g1.MultiSelect = g2.MultiSelect) :
    (handleDeselectAll env1 c g1).2.MultiSelect =
      (handleDeselectAll env2 c g2).2.MultiSelect := by
  obtain ⟨a1, b1⟩ := handleDeselectAll_sel env1 c g1
  obtain ⟨a2, b2⟩ := handleDeselectAll_sel env2 c g2
  apply MultiSelectState.ext_sel
  intro c2
  by_cases hc : c2 = c
  · subst hc
    rw [a1, a2]
  · rw [b1 c2 hc, b2 c2 hc, hs]

end PromptLemmas

end Lazydocker

namespace Lazydocker

section PromptClaims

variable {U D : Type}

/-- C14, decline is non-destructive.  The only code that removes anything is
the accept closure handed to `createConfirmationPanel`; the close handler
handed to it (line 193) is `nil`.  So when the user declines, the state is
the one `handleDeleteSelected` leaves.  For every prior state that state has
the same four selection maps, hence the same counts, and the same Docker
state; no removal call is logged; and when something is selected the only
call logged is the one that opens the prompt. -/
theorem handleDeleteSelected_decline (env : Env U D) (g : Gui U D) :
    (handleDeleteSelected env g).2.MultiSelect = g.MultiSelect ∧
    categoryCounts (handleDeleteSelected env g).2 = categoryCounts g ∧
    getSelectionCount (handleDeleteSelected env g).2 = getSelectionCount g ∧
    (handleDeleteSelected env g).2.docker = g.docker ∧
    (∀ e ∈ (handleDeleteSelected env g).2.log.drop g.log.length,
      e.call.removedKey = none ∧ e.call.rank = 4) ∧
    (getSelectionCount g ≠ 0 →
      (handleDeleteSelected env g).2.log =
        g.log ++ [⟨Call.createConfirmationPanel env.Tr.Confirm
          (buildDeleteConfirmationMessage env g), (handleDeleteSelected env g).1⟩]) := by
  by_cases h : getSelectionCount g = 0
  · rw [handleDeleteSelected_of_zero env g h]
    exact ⟨rfl, rfl, rfl, rfl, by simp, fun h2 => absurd h h2⟩
  · rw [handleDeleteSelected_of_pos env g h]
    refine ⟨rfl, rfl, rfl, rfl, ?_, fun _ => rfl⟩
    intro e he
    simp only [List.drop_left, List.mem_singleton] at he
    subst he
    exact ⟨rfl, rfl⟩

/-- The prompt on the instance, evaluated: two containers are selected, the
prompt is opened with the message, and nothing else happens. -/
theorem handleDeleteSelected_example :
    (handleDeleteSelected (demoEnv "Delete selected?") (demoGui ["a", "b"] [] [] [])).2.log =
      [⟨Call.createConfirmationPanel "Confirm" "Delete selected?\n\n2 container(s)", none⟩] ∧
    (handleDeleteSelected (demoEnv "Delete selected?")
        (demoGui ["a", "b"] [] [] [])).2.MultiSelect =
      (demoGui ["a", "b"] [] [] []).MultiSelect := by
  decide

/-- C15, delete selected with an empty selection.  When the four selection
maps are empty, `handleDeleteSelected` returns `nil` and leaves the state as
it was: no prompt is opened and no call at all is logged.  Conversely, every
call it logs is the call that opens the prompt with the message of
`buildDeleteConfirmationMessage`, and then the total count is positive and at
least one of the four counts is not zero, so the line of the message has at
least one part. -/
theorem handleDeleteSelected_empty (env : Env U D) (g : Gui U D) :
    ((∀ c, g.MultiSelect.sel c = GoMap.make) →
      handleDeleteSelected env g = (none, g) ∧
        (handleDeleteSelected env g).2.log = g.log) ∧
    (∀ e ∈ (handleDeleteSelected env g).2.log.drop g.log.length,
      e.call = Call.createConfirmationPanel env.Tr.Confirm
          (buildDeleteConfirmationMessage env g) ∧
        0 < getSelectionCount g ∧
        (categoryCounts g).filter (fun p => decide (p.1 > 0)) ≠ [] ∧
        buildDeleteConfirmationMessage env g =
          env.Tr.ConfirmDeleteSelected ++ "\n\n" ++ String.intercalate ", "
            (((categoryCounts g).filter (fun p => decide (p.1 > 0))).map
              (fun p => toString p.1 ++ " " ++ p.2 ++ "(s)"))) := by
  constructor
  · intro hall
    have h0 : getSelectionCount g = 0 := by
      rw [getSelectionCount_eq_sel, hall, hall, hall, hall]
      rfl
    rw [handleDeleteSelected_of_zero env g h0]
    exact ⟨rfl, rfl⟩
  · intro e he
    by_cases h : getSelectionCount g = 0
    · rw [handleDeleteSelected_of_zero env g h] at he
      simp at he
    · rw [handleDeleteSelected_of_pos env g h] at he
      simp only [List.drop_left, List.mem_singleton] at he
      subst he
      exact ⟨rfl, Nat.pos_of_ne_zero h, categoryCounts_filter_ne_nil g h,
        buildDeleteConfirmationMessage_eq_counts env g⟩

/-- The empty selection on the instance, evaluated: nothing is logged. -/
theorem handleDeleteSelected_empty_example :
    (handleDeleteSelected (demoEnv "Delete selected?") (demoGui [] [] [] [])).1 = none ∧
    (handleDeleteSelected (demoEnv "Delete selected?") (demoGui [] [] [] [])).2.log = [] := by
  decide

/-- C16, a failed re-rendering does not affect the selection.  Take two
environments that may differ in every external call, `RerenderList` among
them, and two states with the same selection.  For every category, when the
panels report the same focused identifier the toggle handlers leave the same
selection, when they report the same visible identifiers the select-all
handlers leave the same selection, and the deselect-all handlers leave the
same selection.  So the selection that a handler leaves is the one it leaves
when `RerenderList` succeeds, whatever `RerenderList` returns.  The select-all
and deselect-all handlers return what `RerenderList` returns, and so does the
toggle handler when there is a focused item, where `RerenderList` runs after
`SelectNextLine`. -/
theorem handlers_rerender_independent (env1 env2 : Env U D) (c : Category) (g1 g2 : Gui U D)
    (hs : g1.MultiSelect = g2.MultiSelect)
    (hf : focusedKey env1 g1.ui c = focusedKey env2 g2.ui c)
    (hv : visibleKeys env1 g1.ui c = visibleKeys env2 g2.ui c) :
    (handleToggleSelection env1 c g1).2.MultiSelect =
      (handleToggleSelection env2 c g2).2.MultiSelect ∧
    (handleSelectAll env1 c g1).2.MultiSelect = (handleSelectAll env2 c g2).2.MultiSelect ∧
    (handleDeselectAll env1 c g1).2.MultiSelect =
      (handleDeselectAll env2 c g2).2.MultiSelect ∧
    (handleSelectAll env1 c g1).1 = (rerenderOf env1 c g1.ui).1 ∧
    (handleDeselectAll env1 c g1).1 = (rerenderOf env1 c g1.ui).1 ∧
    (∀ id, focusedKey env1 g1.ui c = Except.ok id →
      (handleToggleSelection env1 c g1).1 =
        (rerenderOf env1 c (selectNextOf env1 c g1.ui)).1) :=
  ⟨handleToggleSelection_congr env1 env2 c g1 g2 hs hf,
    handleSelectAll_congr env1 env2 c g1 g2 hs hv,
    handleDeselectAll_congr env1 env2 c g1 g2 hs,
    handleSelectAll_result env1 c g1,
    handleDeselectAll_result env1 c g1,
    fun id h => handleToggleSelection_result env1 c g1 id h⟩

/-- C16 on the instance: the same state under the environment whose
`RerenderList` succeeds and under the one whose `RerenderList` fails. -/
theorem handlers_rerender_independent_witness :
    (demoGui ["b"] [] [] []).MultiSelect = (demoGui ["b"] [] [] []).MultiSelect ∧
    focusedKey demoEnvNoDraw (demoGui ["b"] [] [] []).ui Category.container =
      focusedKey (demoEnv "") (demoGui ["b"] [] [] []).ui Category.container ∧
    visibleKeys demoEnvNoDraw (demoGui ["b"] [] [] []).ui Category.container =
      visibleKeys (demoEnv "") (demoGui ["b"] [] [] []).ui Category.container ∧
    (handleToggleSelection demoEnvNoDraw Category.container
        (demoGui ["b"] [] [] [])).2.MultiSelect =
      (handleToggleSelection (demoEnv "") Category.container
        (demoGui ["b"] [] [] [])).2.MultiSelect :=
  ⟨rfl, rfl, rfl,
    (handlers_rerender_independent demoEnvNoDraw (demoEnv "") Category.container
      (demoGui ["b"] [] [] []) (demoGui ["b"] [] [] []) rfl rfl rfl).1⟩

/-- A failed re-rendering on the instance, evaluated: the three handlers
return the error of `RerenderList`, and the selection is changed all the
same. -/
theorem handlers_rerender_failure_example :
    (handleToggleSelection demoEnvNoDraw Category.container (demoGui ["b"] [] [] [])).1 =
      some "cannot draw" ∧
    (handleToggleSelection demoEnvNoDraw Category.container
        (demoGui ["b"] [] [] [])).2.MultiSelect.Containers = selectKeys ["a", "b"] ∧
    (handleSelectAll demoEnvNoDraw Category.image (demoGui [] [] [] [])).1 =
      some "cannot draw" ∧
    (handleSelectAll demoEnvNoDraw Category.image (demoGui [] [] [] [])).2.MultiSelect.Images =
      selectKeys ["i"] ∧
    (handleDeselectAll demoEnvNoDraw Category.network (demoGui [] [] [] ["n"])).1 =
      some "cannot draw" ∧
    (handleDeselectAll demoEnvNoDraw Category.network
        (demoGui [] [] [] ["n"])).2.MultiSelect.Networks = selectKeys [] := by
  decide

/-- C17, removal policy.  In every run of `deleteSelectedItems`, every
container removal is called with the options `Force: true` and nothing else
set, every image removal with `Force: true` and `PruneChildren: true`, and
every volume removal with `force` true.  The options of a container carry no
prune-dependents field, and the network removal takes no argument.  These are
the options that the functions of `env` receive: the error of each removal
event is what `env.ContainerRemove`, `env.ImageRemove`, `env.VolumeRemove` or
`env.NetworkRemove` returns on the item with exactly these options, and the
removal events as a whole are what the functions of `env` return on the
expected calls, made one after the other. -/
theorem deleteSelectedItems_removal_options (env : Env U D) (o : RangeOrder) (g : Gui U D) :
    ∀ e ∈ (deleteSelectedItems env o g).2.log.drop g.log.length,
      (∀ ctr opts, e.call = Call.ContainerRemove ctr opts →
        opts.Force = true ∧ opts.RemoveVolumes = false ∧ opts.RemoveLinks = false ∧
          ∃ d : D, e.err = (env.ContainerRemove ctr
            { RemoveVolumes := false, RemoveLinks := false, Force := true } d).1) ∧
      (∀ img opts, e.call = Call.ImageRemove img opts →
        opts.Force = true ∧ opts.PruneChildren = true ∧
          ∃ d : D, e.err = (env.ImageRemove img { Force := true, PruneChildren := true } d).1) ∧
      (∀ vol force, e.call = Call.VolumeRemove vol force →
        force = true ∧ ∃ d : D, e.err = (env.VolumeRemove vol true d).1) ∧
      (∀ net, e.call = Call.NetworkRemove net →
        ∃ d : D, e.err = (env.NetworkRemove net d).1) ∧
      removalEvents env o g = (runCalls env (expectedCalls env o g) g.docker).1 ∧
      (deleteSelectedItems env o g).2.docker =
        (runCalls env (expectedCalls env o g) g.docker).2 := by
  intro e he
  obtain ⟨tail, hb, ht⟩ := batchEvents_eq env o g
  rw [hb, List.mem_append] at he
  refine ⟨?_, ?_, ?_, ?_, removalEvents_eq_runCalls env o g,
    deleteSelectedItems_docker env o g⟩
  all_goals
    rcases he with he | he
    · rw [removalEvents_eq_runCalls] at he
      obtain ⟨hc, d2, hd⟩ := mem_runCalls env _ _ e he
      simp only [expectedCalls, List.mem_append, List.mem_map] at hc
      rcases hc with ((⟨x, _, h⟩ | ⟨x, _, h⟩) | ⟨x, _, h⟩) | ⟨x, _, h⟩ <;>
        (rw [← h] at hd ⊢
         intros
         rename_i hab
         cases hab <;>
          first
            | exact ⟨rfl, rfl, rfl, d2, hd⟩
            | exact ⟨rfl, rfl, d2, hd⟩
            | exact ⟨rfl, d2, hd⟩
            | exact ⟨d2, hd⟩)
    · have hr := (ht e he).1
      intros
      rename_i hab
      rw [hab] at hr
      simp [Call.rank] at hr

/-- C17 on the second instance, whose removals fail unless they are forced
and, for an image, unless they prune: the removal of the selected image in a
run that removes a container and an image succeeds. -/
theorem deleteSelectedItems_removal_options_witness :
    (⟨Call.ImageRemove ⟨"i", "I"⟩ { Force := true, PruneChildren := true }, none⟩ : Event) ∈
      (deleteSelectedItems strictEnv ⟨["a"], ["i"], [], []⟩
        (strictGui ["a"] ["i"] [] [])).2.log.drop (strictGui ["a"] ["i"] [] []).log.length ∧
    ∀ img opts,
      (⟨Call.ImageRemove ⟨"i", "I"⟩ { Force := true, PruneChildren := true }, none⟩ :
          Event).call = Call.ImageRemove img opts →
        opts.Force = true ∧ opts.PruneChildren = true ∧
          ∃ d : List String,
            (⟨Call.ImageRemove ⟨"i", "I"⟩ { Force := true, PruneChildren := true }, none⟩ :
                Event).err =
              (strictEnv.ImageRemove img { Force := true, PruneChildren := true } d).1 :=
  ⟨by decide,
    (deleteSelectedItems_removal_options strictEnv ⟨["a"], ["i"], [], []⟩
      (strictGui ["a"] ["i"] [] []) _ (by decide)).2.1⟩

/-- A run on the instance, evaluated: the options of each removal call. -/
theorem deleteSelectedItems_removal_options_example :
    (deleteSelectedItems (demoEnv "") ⟨["a"], ["i"], [], ["n"]⟩
        (demoGui ["a"] ["i"] [] ["n"])).2.log.map Event.call =
      [Call.ContainerRemove ⟨"a", "A"⟩
          { RemoveVolumes := false, RemoveLinks := false, Force := true },
       Call.ImageRemove ⟨"i", "I"⟩ { Force := true, PruneChildren := true },
       Call.NetworkRemove ⟨"n"⟩] := by
  decide

/-- A run on the second instance, evaluated: every removal is accepted by
functions that refuse a removal that is not forced, or an image removal that
does not prune, so nothing fails and Docker has lost all four items. -/
theorem deleteSelectedItems_removal_options_strict :
    (deleteSelectedItems strictEnv ⟨["a"], ["i"], ["v"], ["n"]⟩
        (strictGui ["a"] ["i"] ["v"] ["n"])).1 = none ∧
    (deleteSelectedItems strictEnv ⟨["a"], ["i"], ["v"], ["n"]⟩
        (strictGui ["a"] ["i"] ["v"] ["n"])).2.docker = ["A", "I", "v", "n"] ∧
    (deleteSelectedItems strictEnv ⟨["a"], ["i"], ["v"], ["n"]⟩
        (strictGui ["a"] ["i"] ["v"] ["n"])).2.log.map Event.err = [none, none, none, none] := by
  decide

end PromptClaims

end Lazydocker

/-! ## The invariant of the selection maps, and the lookups -/

namespace Lazydocker

section InvariantLemmas

variable {U D : Type}

theorem MultiSelectState.allTrue_iff (s : MultiSelectState) :
    s.AllTrue ↔ ∀ c, (s.sel c).AllTrue := by
  constructor
  · rintro ⟨h1, h2, h3, h4⟩ c
    cases c
    · exact h1
    · exact h2
    · exact h3
    · exact h4
  · intro h
    exact ⟨h Category.container, h Category.image, h Category.volume, h Category.network⟩

theorem allTrue_foldl_set (ks : List String) :
    ∀ m : GoMap, m.AllTrue → (ks.foldl (fun m k => GoMap.set m k true) m).AllTrue := by
  induction ks with
  | nil => intro m h; exact h
  | cons k ks ih => intro m h; exact ih _ (GoMap.allTrue_set h k)

theorem clearAllSelections_allTrue (g : Gui U D) : (clearAllSelections g).MultiSelect.AllTrue :=
  ⟨GoMap.allTrue_make, GoMap.allTrue_make, GoMap.allTrue_make, GoMap.allTrue_make⟩

theorem deleteSelectedItems_MultiSelect (env : Env U D) (o : RangeOrder) (g : Gui U D) :
    (deleteSelectedItems env o g).2.MultiSelect =
      { Containers := GoMap.make, Images := GoMap.make,
        Volumes := GoMap.make, Networks := GoMap.make } := by
  by_cases h : (removeSelected env o g).2 = []
  · rw [deleteSelectedItems_of_no_failure env o g h]; rfl
  · rw [deleteSelectedItems_of_failure env o g h]; rfl

theorem handleToggleSelection_allTrue (env : Env U D) (c : Category) (g : Gui U D)
    (h : g.MultiSelect.AllTrue) : (handleToggleSelection env c g).2.MultiSelect.AllTrue := by
  cases hf : focusedKey env g.ui c with
  | error msg => rw [handleToggleSelection_of_no_focus env c g msg hf]; exact h
  | ok id =>
    obtain ⟨a1, b1⟩ := handleToggleSelection_of_focus env c g id hf
    rw [MultiSelectState.allTrue_iff] at h ⊢
    intro c2
    by_cases hc : c2 = c
    · subst hc
      rw [a1]
      exact allTrue_toggleKey (h c2) id
    · rw [b1 c2 hc]
      exact h c2

theorem handleSelectAll_allTrue (env : Env U D) (c : Category) (g : Gui U D)
    (h : g.MultiSelect.AllTrue) : (handleSelectAll env c g).2.MultiSelect.AllTrue := by
  obtain ⟨a1, b1⟩ := handleSelectAll_sel env c g
  rw [MultiSelectState.allTrue_iff] at h ⊢
  intro c2
  by_cases hc : c2 = c
  · subst hc
    rw [a1]
    exact allTrue_foldl_set _ _ (h c2)
  · rw [b1 c2 hc]
    exact h c2

theorem handleDeselectAll_allTrue (env : Env U D) (c : Category) (g : Gui U D)
    (h : g.MultiSelect.AllTrue) : (handleDeselectAll env c g).2.MultiSelect.AllTrue := by
  obtain ⟨a1, b1⟩ := handleDeselectAll_sel env c g
  rw [MultiSelectState.allTrue_iff] at h ⊢
  intro c2
  by_cases hc : c2 = c
  · subst hc
    rw [a1]
    exact GoMap.allTrue_make
  · rw [b1 c2 hc]
    exact h c2

theorem handleDeleteSelected_MultiSelect (env : Env U D) (g : Gui U D) :
    (handleDeleteSelected env g).2.MultiSelect = g.MultiSelect := by
  by_cases h : getSelectionCount g = 0
  · rw [handleDeleteSelected_of_zero env g h]
  · rw [handleDeleteSelected_of_pos env g h]

/-- Every operation keeps the maps free of `false`. -/
theorem applyOp_allTrue (env : Env U D) (g : Gui U D) (op : Op)
    (h : g.MultiSelect.AllTrue) : (applyOp env g op).MultiSelect.AllTrue := by
  cases op with
  | toggle c => exact handleToggleSelection_allTrue env c g h
  | selectAll c => exact handleSelectAll_allTrue env c g h
  | deselectAll c => exact handleDeselectAll_allTrue env c g h
  | clearAll => exact clearAllSelections_allTrue g
  | deleteSelected =>
    show (handleDeleteSelected env g).2.MultiSelect.AllTrue
    rw [handleDeleteSelected_MultiSelect]
    exact h
  | batchDelete o =>
    show (deleteSelectedItems env o g).2.MultiSelect.AllTrue
    rw [deleteSelectedItems_MultiSelect]
    exact ⟨GoMap.allTrue_make, GoMap.allTrue_make, GoMap.allTrue_make, GoMap.allTrue_make⟩

theorem runOps_allTrue (env : Env U D) (ops : List Op) :
    ∀ g : Gui U D, g.MultiSelect.AllTrue → (runOps env ops g).MultiSelect.AllTrue := by
  induction ops with
  | nil => intro g h; exact h
  | cons op ops ih =>
    intro g h
    exact ih (applyOp env g op) (applyOp_allTrue env g op h)

theorem GoMap.get_iff_mem {m : GoMap} (hT : m.AllTrue) (id : String) :
    m.get id = true ↔ id ∈ m := by
  constructor
  · intro h
    by_contra hn
    rw [GoMap.get_of_not_mem hn] at h
    cases h
  · exact GoMap.get_of_mem hT

/-! ### The lookups as a search for the first match -/

theorem findContainerIn_eq_find (all : List Container) (id : String) :
    findContainerIn all id = all.find? (fun c => decide (c.ID = id)) := by
  induction all with
  | nil => rfl
  | cons a rest ih =>
    by_cases h : a.ID = id <;> simp [findContainerIn, List.find?_cons, h, ih]

theorem findImageIn_eq_find (all : List Image) (id : String) :
    findImageIn all id = all.find? (fun c => decide (c.ID = id)) := by
  induction all with
  | nil => rfl
  | cons a rest ih =>
    by_cases h : a.ID = id <;> simp [findImageIn, List.find?_cons, h, ih]

theorem findVolumeIn_eq_find (all : List Volume) (id : String) :
    findVolumeIn all id = all.find? (fun c => decide (c.Name = id)) := by
  induction all with
  | nil => rfl
  | cons a rest ih =>
    by_cases h : a.Name = id <;> simp [findVolumeIn, List.find?_cons, h, ih]

theorem findNetworkIn_eq_find (all : List Network) (id : String) :
    findNetworkIn all id = all.find? (fun c => decide (c.Name = id)) := by
  induction all with
  | nil => rfl
  | cons a rest ih =>
    by_cases h : a.Name = id <;> simp [findNetworkIn, List.find?_cons, h, ih]

/-- A search for the first item with the key `id`: what `none` and `some`
mean. -/
theorem find_first_spec {α : Type} (key : α → String) (all : List α) (id : String) :
    (all.find? (fun c => decide (key c = id)) = none ↔ ∀ x ∈ all, key x ≠ id) ∧
    ∀ item, all.find? (fun c => decide (key c = id)) = some item ↔
      key item = id ∧ ∃ before after, all = before ++ item :: after ∧
        ∀ x ∈ before, key x ≠ id := by
  constructor
  · rw [List.find?_eq_none]
    simp
  · intro item
    rw [List.find?_eq_some]
    simp

/-- An identifier resolves exactly when some item of the panel carries it. -/
theorem resolves_iff_mem_allKeys (env : Env U D) (g : Gui U D) (c : Category) (id : String) :
    resolves env g c id = true ↔ id ∈ allKeys env g.ui c := by
  cases c
  · simp only [resolves, findContainerByID, findContainerIn_eq_find, allKeys,
      List.find?_isSome, List.mem_map, decide_eq_true_eq]
  · simp only [resolves, findImageByID, findImageIn_eq_find, allKeys,
      List.find?_isSome, List.mem_map, decide_eq_true_eq]
  · simp only [resolves, findVolumeByName, findVolumeIn_eq_find, allKeys,
      List.find?_isSome, List.mem_map, decide_eq_true_eq]
  · simp only [resolves, findNetworkByName, findNetworkIn_eq_find, allKeys,
      List.find?_isSome, List.mem_map, decide_eq_true_eq]

end InvariantLemmas

end Lazydocker

namespace Lazydocker

section InvariantClaims

variable {U D : Type}

/-- C18, the selection maps represent sets.  Start from the four empty maps
that `clearAllSelections` makes and run any sequence of toggle, select-all,
deselect-all, clear-all, delete-selected and batch-delete operations, in any
environment.  In the state reached, no key of a selection map is stored with
`false`; so `m[id]` is `true` exactly when `id` is a key of `m`, and `len(m)`
is the number of identifiers `id` with `m[id]` true. -/
theorem runOps_set_representation (env : Env U D) (ops : List Op) (g : Gui U D)
    (c : Category) :
    (runOps env ops (clearAllSelections g)).MultiSelect.AllTrue ∧
    (∀ id, ((runOps env ops (clearAllSelections g)).MultiSelect.sel c).lookup id ≠
      some false) ∧
    (∀ id, ((runOps env ops (clearAllSelections g)).MultiSelect.sel c).get id = true ↔
      id ∈ (runOps env ops (clearAllSelections g)).MultiSelect.sel c) ∧
    ((runOps env ops (clearAllSelections g)).MultiSelect.sel c).len =
      (((runOps env ops (clearAllSelections g)).MultiSelect.sel c).keys.filter
        (fun id =>
          ((runOps env ops (clearAllSelections g)).MultiSelect.sel c).get id = true)).card := by
  have hT := runOps_allTrue env ops (clearAllSelections g) (clearAllSelections_allTrue g)
  have hc := (MultiSelectState.allTrue_iff _).1 hT c
  refine ⟨hT, ?_, GoMap.get_iff_mem hc, ?_⟩
  · intro id hid
    have := hc id (Finmap.mem_keys.2 (Finmap.mem_of_lookup_eq_some hid))
    rw [hid] at this
    cases this
  · rw [Finset.filter_true_of_mem]
    · rfl
    · intro id hid
      exact GoMap.get_of_mem hc (Finmap.mem_keys.1 hid)

/-- A run on the instance, evaluated: select all containers, toggle the
focused one, select the image, and delete the selection. -/
theorem runOps_example :
    (runOps (demoEnv "") [Op.selectAll Category.container, Op.toggle Category.container,
        Op.selectAll Category.image]
      (clearAllSelections (demoGui ["x"] [] [] []))).MultiSelect.Containers = selectKeys ["b"] ∧
    (runOps (demoEnv "") [Op.selectAll Category.container, Op.toggle Category.container,
        Op.selectAll Category.image]
      (clearAllSelections (demoGui ["x"] [] [] []))).MultiSelect.Images = selectKeys ["i"] ∧
    getSelectionCount (runOps (demoEnv "") [Op.selectAll Category.container,
        Op.toggle Category.container, Op.selectAll Category.image,
        Op.batchDelete ⟨["b"], ["i"], [], []⟩]
      (clearAllSelections (demoGui ["x"] [] [] []))) = 0 := by
  decide

/-- C19, the lookups.  Each of `findContainerByID`, `findImageByID`,
`findVolumeByName` and `findNetworkByName` returns `nil` exactly when no item
of `List.GetAllItems()` carries the identifier, and otherwise the first item
of that list, in list order, that carries it (`ID` for containers and images,
`Name` for volumes and networks).  So a selected identifier resolves exactly
when some item of `List.GetAllItems()` carries it, shown by the panel or not,
and the batch deletion then calls its removal exactly once. -/
theorem find_first_match (env : Env U D) (o : RangeOrder) (g : Gui U D) (id : String)
    (hv : o.Valid g.MultiSelect) :
    ((findContainerByID env g id = none ↔
        ∀ x ∈ env.Containers.GetAllItems g.ui, x.ID ≠ id) ∧
      ∀ item, findContainerByID env g id = some item ↔
        item.ID = id ∧ ∃ before after,
          env.Containers.GetAllItems g.ui = before ++ item :: after ∧
            ∀ x ∈ before, x.ID ≠ id) ∧
    ((findImageByID env g id = none ↔ ∀ x ∈ env.Images.GetAllItems g.ui, x.ID ≠ id) ∧
      ∀ item, findImageByID env g id = some item ↔
        item.ID = id ∧ ∃ before after,
          env.Images.GetAllItems g.ui = before ++ item :: after ∧
            ∀ x ∈ before, x.ID ≠ id) ∧
    ((findVolumeByName env g id = none ↔ ∀ x ∈ env.Volumes.GetAllItems g.ui, x.Name ≠ id) ∧
      ∀ item, findVolumeByName env g id = some item ↔
        item.Name = id ∧ ∃ before after,
          env.Volumes.GetAllItems g.ui = before ++ item :: after ∧
            ∀ x ∈ before, x.Name ≠ id) ∧
    ((findNetworkByName env g id = none ↔ ∀ x ∈ env.Networks.GetAllItems g.ui, x.Name ≠ id) ∧
      ∀ item, findNetworkByName env g id = some item ↔
        item.Name = id ∧ ∃ before after,
          env.Networks.GetAllItems g.ui = before ++ item :: after ∧
            ∀ x ∈ before, x.Name ≠ id) ∧
    (∀ c, (resolves env g c id = true ↔ id ∈ allKeys env g.ui c) ∧
      (id ∈ (g.MultiSelect.sel c).keys → id ∈ allKeys env g.ui c →
        ((deleteSelectedItems env o g).2.log.drop g.log.length).countP
          (fun e => decide (e.call.removedKey = some (c, id))) = 1)) := by
  refine ⟨?_, ?_, ?_, ?_, ?_⟩
  · simp only [findContainerByID, findContainerIn_eq_find]
    exact find_first_spec (fun x : Container => x.ID) _ id
  · simp only [findImageByID, findImageIn_eq_find]
    exact find_first_spec (fun x : Image => x.ID) _ id
  · simp only [findVolumeByName, findVolumeIn_eq_find]
    exact find_first_spec (fun x : Volume => x.Name) _ id
  · simp only [findNetworkByName, findNetworkIn_eq_find]
    exact find_first_spec (fun x : Network => x.Name) _ id
  · intro c
    refine ⟨resolves_iff_mem_allKeys env g c id, ?_⟩
    intro hsel hall
    obtain ⟨tail, hb, ht⟩ := batchEvents_eq env o g
    rw [hb, countP_append_tail _ _ _ _ ht]
    exact countP_removalEvents_of_selected env o g hv c id hsel
      ((resolves_iff_mem_allKeys env g c id).2 hall)

/-- C19 on the instance: the container `c` is selected; it is among all the
items of the panel and is not shown. -/
theorem find_first_match_witness :
    (RangeOrder.mk ["c"] [] [] []).Valid (demoGui ["c"] [] [] []).MultiSelect ∧
    "c" ∉ visibleKeys (demoEnv "") (demoGui ["c"] [] [] []).ui Category.container ∧
    ((deleteSelectedItems (demoEnv "") ⟨["c"], [], [], []⟩
        (demoGui ["c"] [] [] [])).2.log.drop (demoGui ["c"] [] [] []).log.length).countP
      (fun e => decide (e.call.removedKey = some (Category.container, "c"))) = 1 :=
  ⟨by decide, by decide,
    ((find_first_match (demoEnv "") ⟨["c"], [], [], []⟩ (demoGui ["c"] [] [] []) "c"
      (by decide)).2.2.2.2 Category.container).2 (by decide) (by decide)⟩

/-- The lookups on a list with two items of the same identifier, evaluated:
the first one is returned; and the hidden container of the instance is
removed by the batch. -/
theorem find_first_match_example :
    findContainerIn [⟨"a", "first"⟩, ⟨"b", "B"⟩, ⟨"a", "second"⟩] "a" = some ⟨"a", "first"⟩ ∧
    findContainerIn [⟨"a", "first"⟩, ⟨"b", "B"⟩, ⟨"a", "second"⟩] "z" = none ∧
    (deleteSelectedItems (demoEnv "") ⟨["c"], [], [], []⟩
        (demoGui ["c"] [] [] [])).2.log.map Event.call =
      [Call.ContainerRemove ⟨"c", "C"⟩ { Force := true }] := by
  decide

end InvariantClaims

end Lazydocker
